import Mathlib

/-!
Verification of the scaffold-generator scripts of the Real-Privacy-Trading
repository (`scripts/create-fhevm-example.ts`, `scripts/create-fhevm-category.ts`,
`scripts/generate-docs.ts`).

The scripts are straight-line Node programs that look up a name in a
compiled-in registry, create a few directories and write template strings to
disk.  We embed them shallowly:

* the filesystem is a value (`FS`): a list of existing directory paths and an
  association list of files (path, content); `fs.existsSync` / `fs.mkdirSync` /
  `fs.writeFileSync` / `fs.readFileSync` are functions on it;
* a `World` couples the filesystem with the trace of performed filesystem
  operations (`ops`) and the console lines printed so far (`out`);
* `process.exit(n)` / normal termination is the `Nat` exit code returned next
  to the final world; `new Date().toISOString()` is an explicit `now : String`
  parameter of the one function that calls it;
* `path.join(a, b)` is modelled as `a ++ "/" ++ b` (node's normalization of
  `./`-segments is not modelled; both sides denote the same file);
* JS template literals become explicit string concatenations, transcribed
  from the source; literal braces appear as `\x7b`/`\x7d` escapes.
-/

set_option maxRecDepth 40000

namespace RPT

/-- Decides whether `pat` occurs at the head of a character list (used to model
`String.prototype.indexOf` and `String.prototype.startsWith`). -/
def prefMatch : List Char → List Char → Bool
  | [], _ => true
  | _ :: _, [] => false
  | a :: as, b :: bs => a == b && prefMatch as bs

/-- First index `≥ i` (counting the second argument's head as position `i`) at
which `pat` occurs, if any. -/
def findOcc (pat : List Char) : List Char → Nat → Option Nat
  | [], i => if prefMatch pat [] then some i else none
  | c :: t, i => if prefMatch pat (c :: t) then some i else findOcc pat t (i + 1)

/-- Substring occurrence test on strings. -/
def strContains (s pat : String) : Bool := (findOcc pat.data s.data 0).isSome

/-- Model of `s.startsWith(pat)`. -/
def strStartsWith (s pat : String) : Bool := prefMatch pat.data s.data

/-- Model of `s.indexOf(pat, fromIdx)`: `-1` when absent; a negative
`fromIdx` is clamped to `0` as in JavaScript. -/
def jsIndexOfFrom (s pat : String) (fromIdx : Int) : Int :=
  let start : Nat := fromIdx.toNat
  match findOcc pat.data (s.data.drop start) start with
  | some n => (n : Int)
  | none => -1

/-- Model of `s.substring(a, b)` for `a ≤ b` (clamped to the string length as
in JavaScript). -/
def jsSubstring (s : String) (a b : Nat) : String := String.mk ((s.data.take b).drop a)

/-- Model of JS `str.charAt(0).toUpperCase() + str.slice(1)`. -/
def capFirst (s : String) : String :=
  match s.data with
  | [] => ""
  | c :: t => String.mk (c.toUpper :: t)

/-- String membership in a list of strings, as a boolean (models JS
`array.includes(x)` on string arrays and path-existence lookups). -/
def memStr (p : String) : List String → Bool
  | [] => false
  | d :: ds => (p == d) || memStr p ds

/-- The filesystem: the set of existing directories (as a list of paths) and
the existing files as an association list from path to content. -/
structure FS where
  dirs : List String
  files : List (String × String)
deriving DecidableEq

/-- Model of `fs.existsSync`. -/
def FS.existsSync (fs : FS) (p : String) : Bool :=
  memStr p fs.dirs || memStr p (fs.files.map Prod.fst)

/-- Model of `fs.mkdirSync(p, { recursive: true })` (the parent-creation
aspect of `recursive` is immaterial here: paths are compared literally). -/
def FS.mkdirSync (fs : FS) (p : String) : FS :=
  { fs with dirs := fs.dirs ++ [p] }

/-- Model of `fs.writeFileSync(p, c)`: creates or truncates the file. -/
def FS.writeFileSync (fs : FS) (p c : String) : FS :=
  { fs with files := fs.files.filter (fun e => e.1 != p) ++ [(p, c)] }

/-- Model of `fs.readFileSync(p, "utf-8")` (the scripts call it only after a
successful `existsSync` check, so the missing-file case is arbitrary). -/
def FS.readFileSync (fs : FS) (p : String) : String :=
  (List.lookup p fs.files).getD ""

/-- One recorded filesystem mutation. -/
inductive FsOp where
  | mkdir (path : String)
  | write (path : String) (content : String)
deriving DecidableEq

/-- The world a script runs in: filesystem, trace of filesystem mutations
(in order), and console lines printed so far (in order). -/
structure World where
  fs : FS
  ops : List FsOp
  out : List String
deriving DecidableEq

/-- Model of one `console.log` / `console.error` / `console.warn` call. -/
def World.log (w : World) (s : String) : World :=
  { w with out := w.out ++ [s] }

/-- Several console calls in sequence. -/
def World.logMany (w : World) (ls : List String) : World :=
  { w with out := w.out ++ ls }

/-- Perform and record a `mkdirSync`. -/
def World.mkdir (w : World) (p : String) : World :=
  { w with fs := w.fs.mkdirSync p, ops := w.ops ++ [FsOp.mkdir p] }

/-- Perform and record a `writeFileSync`. -/
def World.write (w : World) (p c : String) : World :=
  { w with fs := w.fs.writeFileSync p c, ops := w.ops ++ [FsOp.write p c] }

/-- The `if (!fs.existsSync(p)) { fs.mkdirSync(p, { recursive: true }); }`
idiom shared by all three scripts. -/
def World.ensureDir (w : World) (p : String) : World :=
  if w.fs.existsSync p then w else w.mkdir p

/-- A world with an empty filesystem, no recorded operations and no console
output: the state a script starts in on a fresh checkout. -/
def freshWorld : World := { fs := { dirs := [], files := [] }, ops := [], out := [] }

/-- Model of `path.join(a, b)` (see the module docstring). -/
def pathJoin (a b : String) : String := a ++ "/" ++ b

/-- The write operations of a trace, as (path, content) pairs in order. -/
def filterWrites (ops : List FsOp) : List (String × String) :=
  ops.filterMap fun op =>
    match op with
    | FsOp.write p c => some (p, c)
    | FsOp.mkdir _ => none

/-- The mkdir operations of a trace, as paths in order. -/
def filterMkdirs (ops : List FsOp) : List String :=
  ops.filterMap fun op =>
    match op with
    | FsOp.mkdir p => some p
    | FsOp.write _ _ => none

end RPT

namespace RPT.Docs

/-- Configuration record of `scripts/generate-docs.ts` (interface
`DocumentationConfig`). -/
structure DocumentationConfig where
  name : String
  title : String
  description : String
  contractFile : String
  testFile : String
  chapter : String
deriving DecidableEq

/-- The registry `DOCS_CONFIG` of `generate-docs.ts`, in insertion order. -/
def DOCS_CONFIG : List (String × DocumentationConfig) :=
  [("real-privacy-trading",
    { name := "real-privacy-trading"
      title := "Real Privacy Trading Platform"
      description := "Privacy-preserving decentralized trading using FHEVM"
      contractFile := "contracts/RealPrivacyTrading.sol"
      testFile := "test/RealPrivacyTrading.ts"
      chapter := "privacy-trading" })]

/-- The usage text printed by `showHelp` of `generate-docs.ts`. -/
def helpText : String :=
  "\nFHEVM Documentation Generator\n==============================\n\nUsage:\n"
    ++ "  npx ts-node scripts/generate-docs.ts [example-name]\n"
    ++ "  npx ts-node scripts/generate-docs.ts --all\n\nArguments:\n"
    ++ "  [example-name]   Name of the example to generate docs for\n\nOptions:\n"
    ++ "  --all            Generate documentation for all examples\n"
    ++ "  --help           Show this help message\n\nExamples:\n"
    ++ "  npx ts-node scripts/generate-docs.ts real-privacy-trading\n"
    ++ "  npx ts-node scripts/generate-docs.ts --all\n\n"
    ++ "For more information, see README.md\n  "

/-- Model of `extractCodeSection` of `generate-docs.ts`: returns the resulting
string together with the world (a warning may be printed).  This helper is
defined by the script but never invoked on the generation path. -/
def extractCodeSection (w : World) (filePath startComment endComment : String) :
    World × String :=
  if w.fs.existsSync filePath = false then
    (w.log ("  ⚠️  File not found: " ++ filePath), "")
  else
    let content := w.fs.readFileSync filePath
    let startIdx := jsIndexOfFrom content startComment 0
    let endIdx := jsIndexOfFrom content endComment startIdx
    if startIdx == -1 || endIdx == -1 then
      (w, jsSubstring content 0 500 ++ "\n...")
    else
      (w, jsSubstring content startIdx.toNat (endIdx.toNat + endComment.length))

/-- The generated markdown body (`docContent` in `generateDocumentation` of
`generate-docs.ts`), transcribed from the source template.  It interpolates
only the `title`, `chapter`, `description`, `contractFile` and `testFile`
fields of the selected config; it never reads the named files. -/
def docContent (config : DocumentationConfig) : String :=
  "# " ++ config.title ++ "\n\n```chapter: " ++ config.chapter ++ "\n```\n\n## Overview\n\n"
    ++ config.description ++ "\n\n## Key Concepts\n\n### Encrypted State Variables\n"
    ++ "- Trading volumes stored as encrypted values\n"
    ++ "- Portfolio balances maintained in encrypted form\n"
    ++ "- Price data encrypted for strategy confidentiality\n\n### Private Computation\n"
    ++ "- Order matching executed on encrypted data\n"
    ++ "- Portfolio calculations without decryption\n"
    ++ "- Confidential balance updates\n\n### Access Control Patterns\n"
    ++ "- Contract-level permissions with FHE.allowThis()\n"
    ++ "- User-level permissions with FHE.allow()\n"
    ++ "- Privacy-preserving portfolio queries\n\n### Confidential Transactions\n"
    ++ "- Buy/sell orders with encrypted amounts\n"
    ++ "- Anonymous market participation\n"
    ++ "- Zero-knowledge execution proofs\n\n## Smart Contract\n\n### Contract File\n```\n"
    ++ config.contractFile ++ "\n```\n\n### Key Functions\n\n#### placeOrder\n"
    ++ "Places a limit order with encrypted amount and price.\n\n```solidity\n"
    ++ "function placeOrder(\n    string memory pair,\n    bool isLong,\n    uint32 amount,\n"
    ++ "    uint32 price\n) external returns (uint256)\n```\n\n#### quickBuy\n"
    ++ "Executes an instant market buy order.\n\n```solidity\n"
    ++ "function quickBuy(string memory pair, uint32 amount) external returns (uint256)\n"
    ++ "```\n\n#### quickSell\nExecutes an instant market sell order.\n\n```solidity\n"
    ++ "function quickSell(string memory pair, uint32 amount) external returns (uint256)\n"
    ++ "```\n\n#### getPortfolioBalance\nRetrieves encrypted portfolio balance.\n\n```solidity\n"
    ++ "function getPortfolioBalance(address trader, string memory pair) external view returns (uint256)\n"
    ++ "```\n\n## Test Suite\n\n### Test File\n```\n" ++ config.testFile
    ++ "\n```\n\n### Test Categories\n\n#### ✅ Correct Patterns\n"
    ++ "- Proper FHE permission granting\n- Encrypted value operations\n"
    ++ "- User-specific decryption workflows\n- Order placement and execution\n\n"
    ++ "#### ❌ Common Pitfalls\n- Missing FHE.allowThis() permission\n"
    ++ "- Incorrect permission scoping\n- Missing input validation\n"
    ++ "- Unencrypted value operations\n\n## FHEVM Patterns Demonstrated\n\n"
    ++ "### Pattern 1: Encrypt and Grant Permissions\n```solidity\n"
    ++ "// ✅ CORRECT: Grant both permissions\n"
    ++ "euint32 encryptedValue = FHE.asEuint32(userInput);\n"
    ++ "FHE.allowThis(encryptedValue);           // Contract permission\n"
    ++ "FHE.allow(encryptedValue, msg.sender);   // User permission\n```\n\n"
    ++ "### Pattern 2: Operations on Encrypted Values\n```solidity\n"
    ++ "// ✅ CORRECT: Use FHE operations\n"
    ++ "euint32 currentBalance = portfolios[msg.sender][pair];\n"
    ++ "euint32 newBalance = FHE.add(currentBalance, encryptedAmount);\n"
    ++ "portfolios[msg.sender][pair] = newBalance;\n\n"
    ++ "FHE.allowThis(newBalance);\nFHE.allow(newBalance, msg.sender);\n```\n\n"
    ++ "### Pattern 3: User Decryption\n```solidity\n"
    ++ "// ✅ CORRECT: User can decrypt own data\n"
    ++ "function getMyBalance(string memory pair) external view returns (uint256) \x7b\n"
    ++ "    return portfolios[msg.sender][pair];\n\x7d\n```\n\n"
    ++ "### Pattern 4: Privacy-Preserving Queries\n```solidity\n"
    ++ "// ✅ CORRECT: Only authorized users access data\n"
    ++ "function getPortfolioBalance(address trader, string memory pair)\n"
    ++ "    external view returns (uint256) \x7b\n"
    ++ "    require(msg.sender == trader, \"Only owner can view\");\n"
    ++ "    return portfolios[trader][pair];\n\x7d\n```\n\n## Getting Started\n\n"
    ++ "### Installation\n```bash\nnpm install\n```\n\n### Compilation\n```bash\n"
    ++ "npm run compile\n```\n\n### Testing\n```bash\nnpm run test\n```\n\n"
    ++ "### Deployment\n```bash\nnpm run deploy:sepolia\n```\n\n## Use Cases\n\n"
    ++ "### Individual Traders\n- Private trading with hidden strategies\n"
    ++ "- Front-running prevention\n- Anonymous market participation\n\n"
    ++ "### Institutional Users\n- Regulatory compliance\n"
    ++ "- Competitive advantage protection\n- Institutional-grade privacy\n\n"
    ++ "### Privacy Advocates\n- Financial privacy\n- Data sovereignty\n"
    ++ "- Decentralized privacy\n\n## Common Errors and Solutions\n\n"
    ++ "### Error: \"Unauthorized access to encrypted value\"\n```\n"
    ++ "Solution: Add FHE.allowThis() and FHE.allow() after creating encrypted values\n```\n\n"
    ++ "### Error: \"Input proof verification failed\"\n```\n"
    ++ "Solution: Ensure encrypted input was created with correct contract address and user\n```\n\n"
    ++ "### Error: \"Permission denied for decryption\"\n```\n"
    ++ "Solution: Verify FHE.allow(value, user) was called for the decrypting user\n```\n\n"
    ++ "## Learning Resources\n\n- [FHEVM Documentation](https://docs.zama.ai/fhevm)\n"
    ++ "- [Hardhat Documentation](https://hardhat.org)\n"
    ++ "- [Solidity Documentation](https://docs.soliditylang.org/)\n"
    ++ "- [FHE Concepts Guide](https://www.zama.ai/fhevm)\n\n## Summary\n\n"
    ++ "This example demonstrates essential FHEVM concepts for building privacy-preserving "
    ++ "decentralized applications. It showcases encrypted state management, private computation, "
    ++ "and confidential transactions.\n\nBy studying this example, developers can learn:\n"
    ++ "- How to structure privacy-preserving smart contracts\n"
    ++ "- FHEVM permission patterns and best practices\n"
    ++ "- Testing strategies for encrypted contracts\n"
    ++ "- Common pitfalls and how to avoid them\n\n---\n\n"
    ++ "Generated by FHEVM Documentation Generator\n"

/-- The progress lines printed after the documentation file is written. -/
def sectionsLines : List String :=
  ["\n📚 Generated Sections:", "   - Overview", "   - Key Concepts",
   "   - Smart Contract Reference", "   - Test Suite Documentation",
   "   - FHEVM Patterns", "   - Getting Started Guide", "   - Use Cases",
   "   - Common Errors and Solutions", "   - Learning Resources\n"]

/-- Model of `generateDocumentation` of `generate-docs.ts`.  The `Nat`
component is the process exit status (`1` for the `process.exit(1)` on an
unknown name, `0` for normal completion). -/
def generateDocumentation (exampleName : String) (w : World) : World × Nat :=
  match List.lookup exampleName DOCS_CONFIG with
  | none => (w.log ("❌ Unknown example: " ++ exampleName), 1)
  | some config =>
    let w := w.log ("\n📚 Generating Documentation for " ++ config.title)
    let w := w.log ("📍 Chapter: " ++ config.chapter ++ "\n")
    let docsDir := "examples"
    let w := w.ensureDir docsDir
    let docPath := pathJoin docsDir (exampleName ++ ".md")
    let w := w.write docPath (docContent config)
    let w := w.log ("✅ Documentation generated: " ++ docPath)
    let w := w.logMany sectionsLines
    (w, 0)

/-- One entry of the `Available Examples` block of the `--all` summary file,
transcribed from `generateAllDocumentation`. -/
def summaryEntry (key : String) (config : DocumentationConfig) : String :=
  "\n### [" ++ config.title ++ "](./" ++ key ++ ".md)\n\n" ++ config.description
    ++ "\n\n**Chapter:** `" ++ config.chapter ++ "`\n\n**Topics:**\n"
    ++ "- Encrypted state variables\n- Private computation\n"
    ++ "- Access control patterns\n- Confidential transactions\n\n[Read More →](./"
    ++ key ++ ".md)\n"

/-- The aggregated index (`summaryContent` in `generateAllDocumentation`);
`now` is the value of `new Date().toISOString()` at the invocation. -/
def summaryContent (now : String) : String :=
  "# FHEVM Examples Documentation\n\n## Overview\n\n"
    ++ "Complete documentation for FHEVM example repositories demonstrating "
    ++ "privacy-preserving smart contracts.\n\n## Available Examples\n\n"
    ++ String.join (DOCS_CONFIG.map fun kc => summaryEntry kc.1 kc.2)
    ++ "\n\n## Quick Links\n\n- [FHEVM Documentation](https://docs.zama.ai/fhevm)\n"
    ++ "- [GitHub Repository](https://github.com/zama-ai/fhevm)\n"
    ++ "- [Zama Website](https://www.zama.ai)\n\n## Getting Started\n\n"
    ++ "1. Choose an example from the list above\n2. Read the documentation\n"
    ++ "3. Follow the \"Getting Started\" section\n4. Explore the code and tests\n"
    ++ "5. Modify and experiment!\n\n## Learning Path\n\n### Beginner\n"
    ++ "- Start with basic encryption concepts\n- Understand permission systems\n"
    ++ "- Explore simple use cases\n\n### Intermediate\n- Study complex contracts\n"
    ++ "- Learn advanced FHEVM operations\n- Implement custom applications\n\n"
    ++ "### Advanced\n- Multi-contract systems\n- Privacy-preserving protocols\n"
    ++ "- Novel use cases and research\n\n---\n\nLast Updated: " ++ now ++ "\n"

/-- Model of `generateAllDocumentation`: generates documentation for every
registered key in insertion order, then writes the aggregated index.  A
`process.exit(1)` inside any `generateDocumentation` call aborts the batch. -/
def generateAllDocumentation (now : String) (w : World) : World × Nat :=
  let w := w.log "\n📚 Generating Documentation for All Examples\n"
  let r := DOCS_CONFIG.foldl
    (fun (acc : World × Nat) kc =>
      if acc.2 != 0 then acc else generateDocumentation kc.1 acc.1)
    (w, 0)
  if r.2 != 0 then r
  else
    let w := r.1.write (pathJoin "examples" "README.md") (summaryContent now)
    (w.log "✅ Summary created: examples/README.md\n", 0)

/-- Model of the main dispatch of `generate-docs.ts` (its last 14 lines). -/
def main (args : List String) (now : String) (w : World) : World × Nat :=
  if args.length == 0 || memStr "--help" args then
    (w.log helpText, 0)
  else if memStr "--all" args then
    generateAllDocumentation now w
  else
    generateDocumentation (args.getD 0 "") w

end RPT.Docs

namespace RPT.ExampleGen

/-- Configuration record of `scripts/create-fhevm-example.ts` (interface
`ExampleConfig`); the `difficulty` union type is carried as its string. -/
structure ExampleConfig where
  name : String
  title : String
  description : String
  concepts : List String
  difficulty : String
deriving DecidableEq

/-- The registry `EXAMPLES_CONFIG` of `create-fhevm-example.ts`, in insertion
order. -/
def EXAMPLES_CONFIG : List (String × ExampleConfig) :=
  [("fhe-counter",
    { name := "fhe-counter"
      title := "FHE Counter"
      description := "Simple encrypted counter demonstrating basic FHE operations"
      concepts := ["Encrypted state", "FHE.add", "FHE.sub", "Permission management"]
      difficulty := "beginner" }),
   ("encrypt-single-value",
    { name := "encrypt-single-value"
      title := "Encrypt Single Value"
      description := "Demonstrates FHE encryption mechanism and common pitfalls"
      concepts := ["Input proofs", "Encryption", "Permission system", "Common mistakes"]
      difficulty := "beginner" }),
   ("encrypt-multiple-values",
    { name := "encrypt-multiple-values"
      title := "Encrypt Multiple Values"
      description := "Shows how to encrypt and handle multiple values in a single transaction"
      concepts := ["Batch encryption", "Multiple values", "Permission management"]
      difficulty := "beginner" }),
   ("user-decrypt-single-value",
    { name := "user-decrypt-single-value"
      title := "User Decrypt Single Value"
      description := "Demonstrates user decryption and permission requirements"
      concepts := ["User decryption", "View functions", "Access control", "Permissions"]
      difficulty := "beginner" }),
   ("user-decrypt-multiple-values",
    { name := "user-decrypt-multiple-values"
      title := "User Decrypt Multiple Values"
      description := "Shows how to decrypt multiple encrypted values for a user"
      concepts := ["Batch decryption", "Multiple values", "Access control", "Selective access"]
      difficulty := "intermediate" }),
   ("fhe-arithmetic",
    { name := "fhe-arithmetic"
      title := "FHE Arithmetic Operations"
      description := "Demonstrates arithmetic operations on encrypted values"
      concepts := ["FHE.add", "FHE.sub", "FHE.mul", "Chaining operations"]
      difficulty := "intermediate" }),
   ("access-control",
    { name := "access-control"
      title := "Access Control with FHE"
      description := "Demonstrates access control patterns with encrypted values"
      concepts := ["FHE.allow", "FHE.allowThis", "FHE.allowTransient", "Role-based access"]
      difficulty := "intermediate" }),
   ("real-privacy-trading",
    { name := "real-privacy-trading"
      title := "Real Privacy Trading"
      description := "Privacy-preserving decentralized trading platform demonstrating FHEVM concepts"
      concepts := ["Encrypted state variables", "Private computation",
                   "Access control patterns", "Confidential transactions"]
      difficulty := "advanced" })]

/-- Model of `validateExampleName` (`name in EXAMPLES_CONFIG`). -/
def validateExampleName (name : String) : Bool :=
  (List.lookup name EXAMPLES_CONFIG).isSome

/-- One per-example block of the usage text (`showHelp`). -/
def helpEntry (key : String) (config : ExampleConfig) : String :=
  "\n  • " ++ key ++ "\n    Title: " ++ config.title ++ "\n    Description: "
    ++ config.description ++ "\n    Difficulty: " ++ config.difficulty
    ++ "\n    Concepts: " ++ String.intercalate ", " config.concepts ++ "\n  "

/-- The usage text printed by `showHelp` of `create-fhevm-example.ts`. -/
def helpText : String :=
  "\nFHEVM Example Repository Generator\n====================================\n\nUsage:\n"
    ++ "  npx ts-node scripts/create-fhevm-example.ts <example-name> <output-path>\n\n"
    ++ "Arguments:\n  <example-name>   Name of the example to generate\n"
    ++ "  <output-path>    Output directory path\n\nExamples:\n"
    ++ "  npx ts-node scripts/create-fhevm-example.ts real-privacy-trading ./examples/trading\n"
    ++ "  npx ts-node scripts/create-fhevm-example.ts fhe-counter ./examples/counter\n\n"
    ++ "Available Examples:\n"
    ++ String.join (EXAMPLES_CONFIG.map fun kc => helpEntry kc.1 kc.2)
    ++ "\n\nOptions:\n  --help           Show this help message\n"
    ++ "  --list           List all available examples\n\n"
    ++ "For more information, see README.md\n  "

/-- The console lines printed by `listExamples`, in order. -/
def listLines : List String :=
  "\nAvailable FHEVM Examples:\n" ::
    (EXAMPLES_CONFIG.map fun kc =>
      ["  " ++ kc.1, "    Title: " ++ kc.2.title, "    Description: " ++ kc.2.description,
       "    Difficulty: " ++ kc.2.difficulty,
       "    Concepts: " ++ String.intercalate ", " kc.2.concepts, ""]).flatten

/-- The generated `package.json` text (`JSON.stringify(packageJson, null, 2)`
in `createExampleRepository`): keys in insertion order, two-space indent. -/
def packageJsonContent (name description : String) : String :=
  "\x7b\n  \"name\": \"" ++ name ++ "\",\n  \"version\": \"1.0.0\",\n  \"description\": \""
    ++ description ++ "\",\n  \"license\": \"BSD-3-Clause-Clear\",\n  \"scripts\": \x7b\n"
    ++ "    \"compile\": \"hardhat compile\",\n    \"test\": \"hardhat test\",\n"
    ++ "    \"deploy\": \"hardhat deploy\"\n  \x7d,\n  \"dependencies\": \x7b\n"
    ++ "    \"encrypted-types\": \"^0.0.4\",\n    \"@fhevm/solidity\": \"^0.9.1\"\n  \x7d,\n"
    ++ "  \"devDependencies\": \x7b\n    \"@fhevm/hardhat-plugin\": \"^0.3.0-1\",\n"
    ++ "    \"hardhat\": \"^2.26.0\",\n    \"typescript\": \"^5.8.3\"\n  \x7d\n\x7d"

/-- The generated `README.md` text (`readme` in `createExampleRepository`). -/
def readmeContent (config : ExampleConfig) : String :=
  "# " ++ config.title ++ "\n\n" ++ config.description
    ++ "\n\n## FHEVM Concepts Demonstrated\n\n"
    ++ String.intercalate "\n" (config.concepts.map fun concept => "- **" ++ concept ++ "**")
    ++ "\n\n## Getting Started\n\n```bash\n# Install dependencies\nnpm install\n\n"
    ++ "# Compile contracts\nnpm run compile\n\n# Run tests\nnpm run test\n\n"
    ++ "# Deploy\nnpm run deploy\n```\n\n## Difficulty Level\n\n"
    ++ capFirst config.difficulty
    ++ "\n\n## Learn More\n\n- [FHEVM Documentation](https://docs.zama.ai/fhevm)\n"
    ++ "- [Hardhat Documentation](https://hardhat.org)\n"
    ++ "- [Solidity Documentation](https://docs.soliditylang.org/)\n\n---\n\n"
    ++ "Generated by FHEVM Examples Generator\n"

/-- The generated `.gitignore` text (Config-independent). -/
def gitignoreContent : String :=
  "node_modules/\n.env\n.env.local\n.env.*.local\ndist/\nbuild/\nartifacts/\ncache/\n"
    ++ "coverage/\n.hardhat/\n.solcover.json\n*.swp\n*.swo\n*~\n.DS_Store\n"

/-- The generated `hardhat.config.ts` text (Config-independent). -/
def hardhatConfigContent : String :=
  "import \x7b HardhatUserConfig \x7d from \"hardhat/config\";\n"
    ++ "import \"@fhevm/hardhat-plugin\";\n\nconst config: HardhatUserConfig = \x7b\n"
    ++ "  solidity: \x7b\n    version: \"0.8.24\",\n    settings: \x7b\n      optimizer: \x7b\n"
    ++ "        enabled: true,\n        runs: 800,\n      \x7d,\n    \x7d,\n  \x7d,\n"
    ++ "  networks: \x7b\n    hardhat: \x7b\n      chainId: 1337,\n    \x7d,\n  \x7d,\n\x7d;\n\n"
    ++ "export default config;\n"

/-- Model of `createExampleRepository` of `create-fhevm-example.ts`. -/
def createExampleRepository (exampleName outputPath : String) (w : World) : World × Nat :=
  match List.lookup exampleName EXAMPLES_CONFIG with
  | none =>
    ((w.log ("❌ Unknown example: " ++ exampleName)).log
      "Run with --list to see available examples\n", 1)
  | some config =>
    let w := w.log ("\n📋 Generating " ++ config.title ++ " Example Repository")
    let w := w.log ("📍 Output: " ++ outputPath)
    let w := w.log ("🎯 Concepts: " ++ String.intercalate ", " config.concepts ++ "\n")
    let w := if w.fs.existsSync outputPath then w
      else (w.mkdir outputPath).log ("✅ Created directory: " ++ outputPath)
    let w := ["contracts", "test", "deploy", "scripts"].foldl
      (fun w dir => w.ensureDir (pathJoin outputPath dir)) w
    let w := w.log "✅ Created project structure"
    let w := w.write (pathJoin outputPath "package.json")
      (packageJsonContent exampleName config.description)
    let w := w.log "✅ Created package.json"
    let w := w.write (pathJoin outputPath "README.md") (readmeContent config)
    let w := w.log "✅ Created README.md"
    let w := w.write (pathJoin outputPath ".gitignore") gitignoreContent
    let w := w.log "✅ Created .gitignore"
    let w := w.write (pathJoin outputPath "hardhat.config.ts") hardhatConfigContent
    let w := w.log "✅ Created hardhat.config.ts"
    let w := w.logMany
      ["\n✨ Example repository generated successfully!\n", "📌 Next Steps:",
       "   cd " ++ outputPath, "   npm install", "   npm run compile", "   npm run test"]
    (w, 0)

/-- Model of the main dispatch of `create-fhevm-example.ts` (its last
27 lines). -/
def main (args : List String) (w : World) : World × Nat :=
  if args.length == 0 || memStr "--help" args then
    (w.log helpText, 0)
  else if memStr "--list" args then
    (w.logMany listLines, 0)
  else if args.length < 2 then
    ((w.log "❌ Missing required arguments\n").log helpText, 1)
  else
    let exampleName := args.getD 0 ""
    let outputPath := args.getD 1 ""
    if validateExampleName exampleName = false then
      ((w.log ("❌ Unknown example: " ++ exampleName ++ "\n")).logMany listLines, 1)
    else
      createExampleRepository exampleName outputPath w

end RPT.ExampleGen

namespace RPT.CategoryGen

/-- Configuration record of `scripts/create-fhevm-category.ts` (interface
`CategoryConfig`). -/
structure CategoryConfig where
  name : String
  title : String
  description : String
  examples : List String
  concepts : List String
  difficulty : String
deriving DecidableEq

/-- The registry `CATEGORIES_CONFIG` of `create-fhevm-category.ts`, in
insertion order. -/
def CATEGORIES_CONFIG : List (String × CategoryConfig) :=
  [("basic",
    { name := "basic"
      title := "Basic FHEVM Operations"
      description := "Foundational examples covering core FHEVM concepts and operations"
      examples := ["fhe-counter", "encrypt-single-value", "encrypt-multiple-values",
                   "user-decrypt-single-value", "user-decrypt-multiple-values"]
      concepts := ["Encrypted variables", "FHE operations", "Input proofs",
                   "User decryption", "Permission system", "Batch operations"]
      difficulty := "beginner" }),
   ("operations",
    { name := "operations"
      title := "FHE Operations and Arithmetic"
      description := "Examples demonstrating FHE arithmetic operations and comparisons"
      examples := ["fhe-arithmetic"]
      concepts := ["FHE.add", "FHE.sub", "FHE.mul", "FHE.eq",
                   "Chaining operations", "Result permissions"]
      difficulty := "intermediate" }),
   ("access",
    { name := "access"
      title := "Access Control Patterns"
      description := "Examples demonstrating access control and permission management"
      examples := ["access-control"]
      concepts := ["FHE.allow", "FHE.allowThis", "FHE.allowTransient",
                   "Role-based access", "Ownership patterns", "Authorization checks"]
      difficulty := "intermediate" }),
   ("trading",
    { name := "trading"
      title := "Privacy-Preserving Trading Examples"
      description :=
        "Advanced examples demonstrating privacy-preserving decentralized trading using FHEVM"
      examples := ["real-privacy-trading"]
      concepts := ["Encrypted state variables", "Private computation",
                   "Access control patterns", "Confidential transactions",
                   "Order matching", "Portfolio management"]
      difficulty := "advanced" })]

/-- Model of `validateCategoryName` (`name in CATEGORIES_CONFIG`). -/
def validateCategoryName (name : String) : Bool :=
  (List.lookup name CATEGORIES_CONFIG).isSome

/-- One per-category block of the usage text (`showHelp`). -/
def helpEntry (key : String) (config : CategoryConfig) : String :=
  "\n  • " ++ key ++ "\n    Title: " ++ config.title ++ "\n    Description: "
    ++ config.description ++ "\n    Difficulty: " ++ config.difficulty
    ++ "\n    Examples: " ++ String.intercalate ", " config.examples
    ++ "\n    Concepts: " ++ String.intercalate ", " config.concepts ++ "\n  "

/-- The usage text printed by `showHelp` of `create-fhevm-category.ts`. -/
def helpText : String :=
  "\nFHEVM Category Repository Generator\n====================================\n\nUsage:\n"
    ++ "  npx ts-node scripts/create-fhevm-category.ts <category-name> <output-path>\n\n"
    ++ "Arguments:\n  <category-name>  Name of the category to generate\n"
    ++ "  <output-path>    Output directory path\n\nExamples:\n"
    ++ "  npx ts-node scripts/create-fhevm-category.ts trading ./examples/trading\n"
    ++ "  npx ts-node scripts/create-fhevm-category.ts basic ./examples/basic\n\n"
    ++ "Available Categories:\n"
    ++ String.join (CATEGORIES_CONFIG.map fun kc => helpEntry kc.1 kc.2)
    ++ "\n\nOptions:\n  --help           Show this help message\n"
    ++ "  --list           List all available categories\n\n"
    ++ "For more information, see README.md\n  "

/-- The console lines printed by `listCategories`, in order (it prints the
title, description, difficulty and examples of each key, but not its
concepts). -/
def listLines : List String :=
  "\nAvailable FHEVM Categories:\n" ::
    (CATEGORIES_CONFIG.map fun kc =>
      ["  " ++ kc.1, "    Title: " ++ kc.2.title, "    Description: " ++ kc.2.description,
       "    Difficulty: " ++ kc.2.difficulty,
       "    Examples: " ++ String.intercalate ", " kc.2.examples, ""]).flatten

/-- The generated `package.json` text (`JSON.stringify(packageJson, null, 2)`
in `createCategoryRepository`): keys in insertion order, two-space indent. -/
def packageJsonContent (categoryName description : String) : String :=
  "\x7b\n  \"name\": \"fhevm-" ++ categoryName ++ "-examples\",\n  \"version\": \"1.0.0\",\n"
    ++ "  \"description\": \"" ++ description ++ "\",\n  \"license\": \"BSD-3-Clause-Clear\",\n"
    ++ "  \"scripts\": \x7b\n    \"compile\": \"hardhat compile\",\n    \"test\": \"hardhat test\",\n"
    ++ "    \"deploy\": \"hardhat deploy\",\n    \"lint\": \"hardhat check\",\n"
    ++ "    \"coverage\": \"hardhat coverage\"\n  \x7d,\n  \"dependencies\": \x7b\n"
    ++ "    \"encrypted-types\": \"^0.0.4\",\n    \"@fhevm/solidity\": \"^0.9.1\"\n  \x7d,\n"
    ++ "  \"devDependencies\": \x7b\n    \"@fhevm/hardhat-plugin\": \"^0.3.0-1\",\n"
    ++ "    \"@nomicfoundation/hardhat-chai-matchers\": \"^2.1.0\",\n"
    ++ "    \"@nomicfoundation/hardhat-ethers\": \"^3.1.0\",\n"
    ++ "    \"@nomicfoundation/hardhat-network-helpers\": \"^1.1.0\",\n"
    ++ "    \"@nomicfoundation/hardhat-verify\": \"^2.1.0\",\n"
    ++ "    \"@typechain/ethers-v6\": \"^0.5.1\",\n    \"@typechain/hardhat\": \"^9.1.0\",\n"
    ++ "    \"@types/chai\": \"^4.3.20\",\n    \"@types/mocha\": \"^10.0.10\",\n"
    ++ "    \"@types/node\": \"^20.19.8\",\n"
    ++ "    \"@typescript-eslint/eslint-plugin\": \"^8.37.0\",\n"
    ++ "    \"@typescript-eslint/parser\": \"^8.37.0\",\n"
    ++ "    \"@zama-fhe/relayer-sdk\": \"^0.3.0-5\",\n    \"chai\": \"^4.5.0\",\n"
    ++ "    \"chai-as-promised\": \"^8.0.1\",\n    \"cross-env\": \"^7.0.3\",\n"
    ++ "    \"eslint\": \"^8.57.1\",\n    \"eslint-config-prettier\": \"^9.1.0\",\n"
    ++ "    \"ethers\": \"^6.15.0\",\n    \"hardhat\": \"^2.26.0\",\n"
    ++ "    \"hardhat-deploy\": \"^0.11.45\",\n    \"hardhat-gas-reporter\": \"^2.3.0\",\n"
    ++ "    \"mocha\": \"^11.7.1\",\n    \"prettier\": \"^3.6.2\",\n"
    ++ "    \"prettier-plugin-solidity\": \"^2.1.0\",\n    \"rimraf\": \"^6.0.1\",\n"
    ++ "    \"solhint\": \"^6.0.0\",\n    \"solidity-coverage\": \"^0.8.16\",\n"
    ++ "    \"ts-generator\": \"^0.1.1\",\n    \"ts-node\": \"^10.9.2\",\n"
    ++ "    \"typechain\": \"^8.3.2\",\n    \"typescript\": \"^5.8.3\"\n  \x7d\n\x7d"

/-- The generated category `README.md` text (`readme` in
`createCategoryRepository`). -/
def readmeContent (categoryName : String) (config : CategoryConfig) : String :=
  "# " ++ config.title ++ "\n\n" ++ config.description
    ++ "\n\n## FHEVM Concepts Demonstrated\n\n"
    ++ String.intercalate "\n" (config.concepts.map fun concept => "- **" ++ concept ++ "**")
    ++ "\n\n## Included Examples\n\n"
    ++ String.intercalate "\n"
        (config.examples.map fun ex => "- **" ++ ex ++ "** - Example repository for " ++ ex)
    ++ "\n\n## Getting Started\n\n### Installation\n\n```bash\n# Install dependencies\n"
    ++ "npm install\n\n# Verify installation\nnpm run compile\n```\n\n### Running Tests\n\n"
    ++ "```bash\n# Run all tests\nnpm run test\n\n# Run with coverage report\n"
    ++ "npm run coverage\n\n# Run linting checks\nnpm run lint\n```\n\n"
    ++ "## Project Structure\n\n```\n" ++ categoryName ++ "-examples/\n"
    ++ "├── contracts/          # Smart contract source files\n"
    ++ "├── test/              # Test suites for contracts\n"
    ++ "├── deploy/            # Deployment scripts\n"
    ++ "├── scripts/           # Utility and automation scripts\n"
    ++ "├── package.json       # Dependencies and scripts\n"
    ++ "├── hardhat.config.ts  # Hardhat configuration\n"
    ++ "└── README.md          # This file\n```\n\n## Development\n\n"
    ++ "### Compile Contracts\n\n```bash\nnpm run compile\n```\n\n### Run Tests\n\n"
    ++ "```bash\n# Run all tests\nnpm run test\n\n# Run with detailed output\n"
    ++ "npm run test -- --reporter tap\n\n# Run specific test file\n"
    ++ "npm run test -- test/YourTest.ts\n```\n\n### Generate Coverage\n\n```bash\n"
    ++ "npm run coverage\n```\n\n## Key Concepts Covered\n\n"
    ++ "### Example 1: Basic Operations\n- Understanding encrypted state variables\n"
    ++ "- Working with input proofs\n- FHE operations on encrypted values\n\n"
    ++ "### Example 2: Advanced Patterns\n- Complex permission models\n"
    ++ "- Private computation flows\n- Confidential transactions\n\n"
    ++ "### Example 3: Production Patterns\n- Error handling strategies\n"
    ++ "- Security best practices\n- Optimization techniques\n\n"
    ++ "## FHEVM Patterns Demonstrated\n\n### Pattern 1: Encrypt and Grant Permissions\n\n"
    ++ "```solidity\n// ✅ CORRECT: Grant both contract and user permissions\n"
    ++ "euint32 encryptedValue = FHE.asEuint32(userInput);\n"
    ++ "FHE.allowThis(encryptedValue);           // Contract permission\n"
    ++ "FHE.allow(encryptedValue, msg.sender);   // User permission\n```\n\n"
    ++ "### Pattern 2: Operations on Encrypted Values\n\n```solidity\n"
    ++ "// ✅ CORRECT: Use FHE operations to compute on encrypted data\n"
    ++ "euint32 currentValue = state[msg.sender];\n"
    ++ "euint32 newValue = FHE.add(currentValue, encryptedAmount);\n"
    ++ "state[msg.sender] = newValue;\n\nFHE.allowThis(newValue);\n"
    ++ "FHE.allow(newValue, msg.sender);\n```\n\n### Pattern 3: User Decryption\n\n"
    ++ "```solidity\n// ✅ CORRECT: User can decrypt their own encrypted data\n"
    ++ "function getMyValue() external view returns (uint32) \x7b\n"
    ++ "    return state[msg.sender];\n\x7d\n```\n\n## Common Pitfalls to Avoid\n\n"
    ++ "### ❌ Missing Permissions\n\n```solidity\n// WRONG: Missing FHE.allowThis()\n"
    ++ "euint32 value = FHE.asEuint32(input);\n"
    ++ "FHE.allow(value, msg.sender);  // Only user permission!\n```\n\n"
    ++ "### ❌ Unauthorized Access\n\n```solidity\n"
    ++ "// WRONG: User cannot decrypt others' values\n"
    ++ "function getBalance(address user) external view returns (uint32) \x7b\n"
    ++ "    return portfolios[user];  // Unauthorized!\n\x7d\n```\n\n"
    ++ "### ❌ Missing Input Validation\n\n```solidity\n// WRONG: No input validation\n"
    ++ "function setEncryptedValue(externalEuint32 input, bytes calldata proof) external \x7b\n"
    ++ "    euint32 value = FHE.fromExternal(input, proof);\n    // Missing validation!\n"
    ++ "\x7d\n```\n\n## Testing Strategy\n\n1. **Unit Tests** - Test individual functions\n"
    ++ "2. **Integration Tests** - Test function interactions\n"
    ++ "3. **Edge Cases** - Test boundary conditions\n"
    ++ "4. **Security Tests** - Test permission system\n"
    ++ "5. **Performance Tests** - Measure gas usage\n\n## Deployment\n\n"
    ++ "### Deploy to Sepolia Testnet\n\n```bash\n# 1. Configure environment\n"
    ++ "export MNEMONIC=\"your seed phrase\"\nexport INFURA_API_KEY=\"your api key\"\n\n"
    ++ "# 2. Deploy\nnpm run deploy:sepolia\n\n# 3. Verify on Etherscan\n"
    ++ "npm run verify:sepolia -- <CONTRACT_ADDRESS>\n```\n\n## Key Dependencies\n\n"
    ++ "- **@fhevm/solidity** - FHEVM Solidity library\n"
    ++ "- **@fhevm/hardhat-plugin** - Hardhat integration with mock environment\n"
    ++ "- **@zama-fhe/relayer-sdk** - Decryption relayer SDK\n"
    ++ "- **hardhat** - Development environment\n- **typescript** - Type safety\n\n"
    ++ "## Learning Resources\n\n- [FHEVM Official Docs](https://docs.zama.ai/fhevm)\n"
    ++ "- [Hardhat Documentation](https://hardhat.org/docs)\n"
    ++ "- [Solidity Guide](https://docs.soliditylang.org/)\n"
    ++ "- [Privacy Concepts](https://www.zama.ai/post/what-is-fully-homomorphic-encryption-fhe)\n\n"
    ++ "## Difficulty Level\n\n**" ++ capFirst config.difficulty ++ "**\n\n"
    ++ "This category is suitable for developers with "
    ++ (if config.difficulty == "beginner" then "basic knowledge of Solidity and blockchain"
        else if config.difficulty == "intermediate" then
          "intermediate Solidity experience and FHE concepts"
        else "advanced cryptography and smart contract knowledge")
    ++ ".\n\n## Contributing\n\nContributions are welcome! When adding new examples:\n\n"
    ++ "1. Follow existing patterns and structure\n"
    ++ "2. Include comprehensive comments explaining FHEVM concepts\n"
    ++ "3. Demonstrate both correct usage and common pitfalls\n"
    ++ "4. Write thorough tests covering success and failure cases\n"
    ++ "5. Update documentation accordingly\n"
    ++ "6. Ensure all tests pass: `npm run test && npm run lint`\n\n## License\n\n"
    ++ "BSD-3-Clause-Clear License\n\n---\n\n"
    ++ "**Built for the Zama FHEVM Example Repository Bounty Program - December 2025**\n"

/-- The generated `.gitignore` text (Config-independent; three entries longer
than the single-example variant). -/
def gitignoreContent : String :=
  "node_modules/\n.env\n.env.local\n.env.*.local\ndist/\nbuild/\nartifacts/\ncache/\n"
    ++ "coverage/\n.hardhat/\n.solcover.json\n*.swp\n*.swo\n*~\n.DS_Store\n.idea/\n"
    ++ ".vscode/\n*.log\n"

/-- The generated `hardhat.config.ts` text (Config-independent). -/
def hardhatConfigContent : String :=
  "import \x7b HardhatUserConfig \x7d from \"hardhat/config\";\n"
    ++ "import \"@fhevm/hardhat-plugin\";\nimport \"@nomicfoundation/hardhat-toolbox\";\n\n"
    ++ "const config: HardhatUserConfig = \x7b\n  solidity: \x7b\n    version: \"0.8.24\",\n"
    ++ "    settings: \x7b\n      optimizer: \x7b\n        enabled: true,\n        runs: 800,\n"
    ++ "      \x7d,\n    \x7d,\n  \x7d,\n  networks: \x7b\n    hardhat: \x7b\n      chainId: 1337,\n"
    ++ "    \x7d,\n    localhost: \x7b\n      url: \"http://127.0.0.1:8545\",\n    \x7d,\n  \x7d,\n"
    ++ "  paths: \x7b\n    sources: \"./contracts\",\n    tests: \"./test\",\n"
    ++ "    cache: \"./cache\",\n    artifacts: \"./artifacts\",\n  \x7d,\n\x7d;\n\n"
    ++ "export default config;\n"

/-- The generated `tsconfig.json` text (`JSON.stringify(tsconfig, null, 2)`). -/
def tsconfigContent : String :=
  "\x7b\n  \"compilerOptions\": \x7b\n    \"target\": \"ES2020\",\n"
    ++ "    \"module\": \"commonjs\",\n    \"lib\": [\n      \"ES2020\"\n    ],\n"
    ++ "    \"outDir\": \"./dist\",\n    \"rootDir\": \"./\",\n    \"strict\": true,\n"
    ++ "    \"esModuleInterop\": true,\n    \"skipLibCheck\": true,\n"
    ++ "    \"forceConsistentCasingInFileNames\": true,\n    \"resolveJsonModule\": true,\n"
    ++ "    \"declaration\": true,\n    \"declarationMap\": true,\n    \"sourceMap\": true\n"
    ++ "  \x7d,\n  \"include\": [\n    \"**/*.ts\"\n  ],\n  \"exclude\": [\n"
    ++ "    \"node_modules\",\n    \"artifacts\",\n    \"cache\",\n    \"dist\"\n  ]\n\x7d"

/-- The generated sample contract `contracts/SampleEncrypted.sol`
(Config-independent). -/
def sampleContractContent : String :=
  "// SPDX-License-Identifier: BSD-3-Clause-Clear\npragma solidity ^0.8.24;\n\n"
    ++ "import \x7b FHE, euint32, externalEuint32 \x7d from \"@fhevm/solidity/lib/FHE.sol\";\n"
    ++ "import \x7b ZamaEthereumConfig \x7d from \"@fhevm/solidity/config/ZamaConfig.sol\";\n\n"
    ++ "/// @title Sample Encrypted Contract\n/// @notice Demonstrates basic FHEVM patterns\n"
    ++ "contract SampleEncrypted is ZamaEthereumConfig \x7b\n  // Encrypted state variable\n"
    ++ "  euint32 private _encryptedValue;\n\n  /// @notice Returns the encrypted value\n"
    ++ "  function getEncryptedValue() external view returns (euint32) \x7b\n"
    ++ "    return _encryptedValue;\n  \x7d\n\n  /// @notice Sets an encrypted value\n"
    ++ "  /// @param inputEuint32 The encrypted input value\n"
    ++ "  /// @param inputProof The input proof for verification\n"
    ++ "  function setEncryptedValue(externalEuint32 inputEuint32, bytes calldata inputProof) external \x7b\n"
    ++ "    euint32 encryptedValue = FHE.fromExternal(inputEuint32, inputProof);\n"
    ++ "    _encryptedValue = encryptedValue;\n\n    FHE.allowThis(_encryptedValue);\n"
    ++ "    FHE.allow(_encryptedValue, msg.sender);\n  \x7d\n\x7d\n"

/-- The generated sample test `test/SampleEncrypted.ts` (Config-independent). -/
def sampleTestContent : String :=
  "import \x7b expect \x7d from \"chai\";\nimport \x7b ethers \x7d from \"hardhat\";\n"
    ++ "import \x7b SampleEncrypted \x7d from \"../typechain-types\";\n"
    ++ "import \x7b getSigners \x7d from \"@nomicfoundation/hardhat-ethers/signers\";\n\n"
    ++ "describe(\"SampleEncrypted\", function () \x7b\n"
    ++ "  let sampleEncrypted: SampleEncrypted;\n\n  beforeEach(async function () \x7b\n"
    ++ "    const SampleEncrypted = await ethers.getContractFactory(\"SampleEncrypted\");\n"
    ++ "    sampleEncrypted = await SampleEncrypted.deploy();\n"
    ++ "    await sampleEncrypted.waitForDeployment();\n  \x7d);\n\n"
    ++ "  it(\"Should deploy successfully\", async function () \x7b\n"
    ++ "    expect(await sampleEncrypted.getAddress()).to.be.properAddress;\n  \x7d);\n\n"
    ++ "  it(\"Should handle encrypted values\", async function () \x7b\n"
    ++ "    const [signer] = await ethers.getSigners();\n"
    ++ "    expect(sampleEncrypted).to.exist;\n  \x7d);\n\x7d);\n"

/-- The generated `DEVELOPER_GUIDE.md` text (`developerGuide` in
`createCategoryRepository`). -/
def developerGuideContent (config : CategoryConfig) : String :=
  "# Developer Guide\n\nThis guide helps you work with " ++ config.title
    ++ ".\n\n## Adding New Examples\n\n1. Create contract in `contracts/YourExample.sol`\n"
    ++ "2. Create test in `test/YourExample.ts`\n3. Run tests: `npm run test`\n"
    ++ "4. Update documentation\n\n## Code Standards\n\n- Use PascalCase for contract names\n"
    ++ "- Use camelCase for function names\n- Add JSDoc comments to all public functions\n"
    ++ "- Include FHEVM pattern explanations\n\n## Testing Guidelines\n\n"
    ++ "- Test both success and failure cases\n- Use descriptive test names\n"
    ++ "- Include error messages in tests\n- Aim for high code coverage\n\n"
    ++ "## FHEVM Best Practices\n\n1. Always grant both permissions:\n"
    ++ "   - `FHE.allowThis(value)`\n   - `FHE.allow(value, user)`\n\n"
    ++ "2. Validate all encrypted inputs\n\n3. Use proper error handling\n\n"
    ++ "4. Document FHEVM concepts in code\n\n## Deployment Checklist\n\n"
    ++ "- [ ] All tests pass\n- [ ] Code is linted\n- [ ] Documentation is updated\n"
    ++ "- [ ] Contract is verified on testnet\n- [ ] Security review complete\n\n---\n\n"
    ++ "For more information, see README.md\n"

/-- Model of `createCategoryRepository` of `create-fhevm-category.ts`. -/
def createCategoryRepository (categoryName outputPath : String) (w : World) : World × Nat :=
  match List.lookup categoryName CATEGORIES_CONFIG with
  | none =>
    ((w.log ("❌ Unknown category: " ++ categoryName)).log
      "Run with --list to see available categories\n", 1)
  | some config =>
    let w := w.log ("\n📋 Generating " ++ config.title ++ " Category Repository")
    let w := w.log ("📍 Output: " ++ outputPath)
    let w := w.log ("🎯 Examples: " ++ String.intercalate ", " config.examples)
    let w := w.log ("📚 Concepts: " ++ String.intercalate ", " config.concepts ++ "\n")
    let w := if w.fs.existsSync outputPath then w
      else (w.mkdir outputPath).log ("✅ Created directory: " ++ outputPath)
    let w := ["contracts", "test", "deploy", "scripts"].foldl
      (fun w dir => w.ensureDir (pathJoin outputPath dir)) w
    let w := w.log "✅ Created project structure"
    let w := w.write (pathJoin outputPath "package.json")
      (packageJsonContent categoryName config.description)
    let w := w.log "✅ Created package.json"
    let w := w.write (pathJoin outputPath "README.md") (readmeContent categoryName config)
    let w := w.log "✅ Created README.md"
    let w := w.write (pathJoin outputPath ".gitignore") gitignoreContent
    let w := w.log "✅ Created .gitignore"
    let w := w.write (pathJoin outputPath "hardhat.config.ts") hardhatConfigContent
    let w := w.log "✅ Created hardhat.config.ts"
    let w := w.write (pathJoin outputPath "tsconfig.json") tsconfigContent
    let w := w.log "✅ Created tsconfig.json"
    let w := w.write (pathJoin (pathJoin outputPath "contracts") "SampleEncrypted.sol")
      sampleContractContent
    let w := w.log "✅ Created sample contract"
    let w := w.write (pathJoin (pathJoin outputPath "test") "SampleEncrypted.ts")
      sampleTestContent
    let w := w.log "✅ Created sample test"
    let w := w.write (pathJoin outputPath "DEVELOPER_GUIDE.md") (developerGuideContent config)
    let w := w.log "✅ Created DEVELOPER_GUIDE.md"
    let w := w.logMany
      ["\n✨ Category repository generated successfully!\n", "📌 Next Steps:",
       "   cd " ++ outputPath, "   npm install", "   npm run compile", "   npm run test"]
    (w, 0)

/-- Model of the main dispatch of `create-fhevm-category.ts` (its last
27 lines). -/
def main (args : List String) (w : World) : World × Nat :=
  if args.length == 0 || memStr "--help" args then
    (w.log helpText, 0)
  else if memStr "--list" args then
    (w.logMany listLines, 0)
  else if args.length < 2 then
    ((w.log "❌ Missing required arguments\n").log helpText, 1)
  else
    let categoryName := args.getD 0 ""
    let outputPath := args.getD 1 ""
    if validateCategoryName categoryName = false then
      ((w.log ("❌ Unknown category: " ++ categoryName ++ "\n")).logMany listLines, 1)
    else
      createCategoryRepository categoryName outputPath w

end RPT.CategoryGen

namespace RPT

/-! Helper lemmas about the string utilities and the world model.  These are
shared infrastructure for the claim theorems below. -/

theorem string_data_inj {s t : String} (h : s.data = t.data) : s = t := by
  cases s
  cases t
  simp only at h
  rw [h]

@[simp] theorem beq_append_cancel (s a b : String) : ((s ++ a) == (s ++ b)) = (a == b) := by
  by_cases h : a = b
  · subst h
    simp
  · have h2 : s ++ a ≠ s ++ b := by
      intro he
      apply h
      have hd := congrArg String.data he
      simp only [String.data_append] at hd
      exact string_data_inj (List.append_cancel_left hd)
    simp [h, h2]

@[simp] theorem beq_append_self (s t : String) (h : (t == "") = false) :
    ((s ++ t) == s) = false := by
  have hne : s ++ t ≠ s := by
    intro he
    have hd := congrArg String.data he
    simp only [String.data_append] at hd
    have : t.data = [] := by
      have := List.self_eq_append_right.mp hd.symm
      exact this
    have ht : t = "" := string_data_inj (by simpa using this)
    rw [ht] at h
    simp at h
  simp [hne]

theorem prefMatch_append {pat s : List Char} (b : List Char) (h : prefMatch pat s = true) :
    prefMatch pat (s ++ b) = true := by
  induction pat generalizing s with
  | nil => simp [prefMatch]
  | cons c cs ih =>
    cases s with
    | nil => simp [prefMatch] at h
    | cons d ds =>
      simp only [prefMatch, Bool.and_eq_true] at h ⊢
      exact ⟨h.1, ih h.2⟩

theorem prefMatch_self_append (a b : List Char) : prefMatch a (a ++ b) = true := by
  induction a with
  | nil => simp [prefMatch]
  | cons c cs ih => simp [prefMatch, ih]

theorem findOcc_shift (pat s : List Char) (i : Nat) :
    findOcc pat s i = (findOcc pat s 0).map (· + i) := by
  induction s generalizing i with
  | nil =>
    simp only [findOcc]
    split <;> simp
  | cons c t ih =>
    simp only [findOcc]
    split
    · simp
    · rw [ih (i + 1), ih 1]
      cases findOcc pat t 0 <;> simp <;> omega

theorem findOcc_isSome_shift (pat s : List Char) (i : Nat) :
    (findOcc pat s i).isSome = (findOcc pat s 0).isSome := by
  rw [findOcc_shift]
  cases findOcc pat s 0 <;> simp

theorem findOcc_none_shift {pat s : List Char} (h : findOcc pat s 0 = none) (i : Nat) :
    findOcc pat s i = none := by
  rw [findOcc_shift, h]
  rfl

theorem findOcc_drop_none {pat s : List Char} (h : findOcc pat s 0 = none) (k i : Nat) :
    findOcc pat (s.drop k) i = none := by
  induction k generalizing s with
  | zero => simpa using findOcc_none_shift h i
  | succ k ih =>
    cases s with
    | nil => simpa using findOcc_none_shift h i
    | cons c t =>
      have ht : findOcc pat t 0 = none := by
        have hu := h
        simp only [findOcc] at hu
        split at hu
        · exact absurd hu (by simp)
        · rw [findOcc_shift] at hu
          cases he : findOcc pat t 0
          · rfl
          · rw [he] at hu
            simp at hu
      simpa using ih ht

theorem findOcc_self_append (pat y : List Char) (i : Nat) :
    findOcc pat (pat ++ y) i = some i := by
  have hp : prefMatch pat (pat ++ y) = true := prefMatch_self_append pat y
  cases h : pat ++ y with
  | nil =>
    rw [h] at hp
    simp [findOcc, hp]
  | cons c t =>
    rw [h] at hp
    simp [findOcc, hp]

theorem findOcc_isSome_mid (pat x y : List Char) (i : Nat) :
    (findOcc pat (x ++ (pat ++ y)) i).isSome = true := by
  induction x generalizing i with
  | nil => simp [findOcc_self_append]
  | cons c t ih =>
    simp only [List.cons_append, findOcc]
    split
    · simp
    · simpa using ih (i + 1)

theorem strContains_mid (x pat y : String) : strContains (x ++ pat ++ y) pat = true := by
  simp only [strContains, String.data_append]
  rw [List.append_assoc]
  exact findOcc_isSome_mid pat.data x.data y.data 0

theorem findOcc_isSome_append (pat s b : List Char) (h : (findOcc pat s 0).isSome = true) :
    (findOcc pat (s ++ b) 0).isSome = true := by
  induction s with
  | nil =>
    have hp : prefMatch pat [] = true := by
      by_contra hc
      simp only [findOcc] at h
      rw [if_neg (by simpa using hc)] at h
      simp at h
    have hpe : pat = [] := by
      cases hq : pat with
      | nil => rfl
      | cons x xs =>
        rw [hq] at hp
        simp [prefMatch] at hp
    subst hpe
    rw [List.nil_append]
    cases b with
    | nil => simp [findOcc, prefMatch]
    | cons c t => simp [findOcc, prefMatch]
  | cons c t ih =>
    rw [List.cons_append]
    simp only [findOcc] at h ⊢
    split
    · simp
    case isFalse hf =>
      split at h
      case isTrue hp =>
        exact absurd (by simpa [List.cons_append] using prefMatch_append b hp) hf
      case isFalse =>
        rw [findOcc_isSome_shift] at h ⊢
        exact ih h

theorem strContains_append_left {a : String} (b : String) {pat : String}
    (h : strContains a pat = true) : strContains (a ++ b) pat = true := by
  simp only [strContains, String.data_append] at h ⊢
  exact findOcc_isSome_append pat.data a.data b.data h
theorem memStr_of_lookup {p c : String} {files : List (String × String)}
    (h : List.lookup p files = some c) : memStr p (files.map Prod.fst) = true := by
  induction files with
  | nil => simp [List.lookup] at h
  | cons e es ih =>
    simp only [List.lookup] at h
    cases he : p == e.1 with
    | true => simp [memStr, he]
    | false =>
      simp only [he] at h
      simp [memStr, he, ih h]

theorem memStr_length_ne_zero {p : String} {l : List String} (h : memStr p l = true) :
    (l.length == 0) = false := by
  cases l with
  | nil => simp [memStr] at h
  | cons d ds => simp

@[simp] theorem ops_log (w : World) (s : String) : (w.log s).ops = w.ops := rfl

@[simp] theorem ops_logMany (w : World) (ls : List String) : (w.logMany ls).ops = w.ops := rfl

@[simp] theorem ops_mkdir (w : World) (p : String) :
    (w.mkdir p).ops = w.ops ++ [FsOp.mkdir p] := rfl

@[simp] theorem ops_write (w : World) (p c : String) :
    (w.write p c).ops = w.ops ++ [FsOp.write p c] := rfl

@[simp] theorem out_log (w : World) (s : String) : (w.log s).out = w.out ++ [s] := rfl

@[simp] theorem out_logMany (w : World) (ls : List String) :
    (w.logMany ls).out = w.out ++ ls := rfl

@[simp] theorem out_mkdir (w : World) (p : String) : (w.mkdir p).out = w.out := rfl

@[simp] theorem out_write (w : World) (p c : String) : (w.write p c).out = w.out := rfl

@[simp] theorem fs_log (w : World) (s : String) : (w.log s).fs = w.fs := rfl

@[simp] theorem fs_logMany (w : World) (ls : List String) : (w.logMany ls).fs = w.fs := rfl

@[simp] theorem fs_mkdir (w : World) (p : String) : (w.mkdir p).fs = w.fs.mkdirSync p := rfl

@[simp] theorem fs_write (w : World) (p c : String) :
    (w.write p c).fs = w.fs.writeFileSync p c := rfl

@[simp] theorem filterWrites_nil : filterWrites [] = [] := rfl

@[simp] theorem filterWrites_append (a b : List FsOp) :
    filterWrites (a ++ b) = filterWrites a ++ filterWrites b := by
  simp [filterWrites]

@[simp] theorem filterWrites_mkdir_single (p : String) :
    filterWrites [FsOp.mkdir p] = [] := rfl

@[simp] theorem filterWrites_write_single (p c : String) :
    filterWrites [FsOp.write p c] = [(p, c)] := rfl

@[simp] theorem filterWrites_cons_write (p c : String) (rest : List FsOp) :
    filterWrites (FsOp.write p c :: rest) = (p, c) :: filterWrites rest := by
  simp [filterWrites]

@[simp] theorem filterWrites_cons_mkdir (p : String) (rest : List FsOp) :
    filterWrites (FsOp.mkdir p :: rest) = filterWrites rest := by
  simp [filterWrites]

@[simp] theorem filterMkdirs_cons_mkdir (p : String) (rest : List FsOp) :
    filterMkdirs (FsOp.mkdir p :: rest) = p :: filterMkdirs rest := by
  simp [filterMkdirs]

@[simp] theorem filterMkdirs_cons_write (p c : String) (rest : List FsOp) :
    filterMkdirs (FsOp.write p c :: rest) = filterMkdirs rest := by
  simp [filterMkdirs]

@[simp] theorem filterMkdirs_nil : filterMkdirs [] = [] := rfl

@[simp] theorem filterMkdirs_append (a b : List FsOp) :
    filterMkdirs (a ++ b) = filterMkdirs a ++ filterMkdirs b := by
  simp [filterMkdirs]

@[simp] theorem filterMkdirs_mkdir_single (p : String) :
    filterMkdirs [FsOp.mkdir p] = [p] := rfl

@[simp] theorem filterMkdirs_write_single (p c : String) :
    filterMkdirs [FsOp.write p c] = [] := rfl

theorem filterWrites_ensureDir (w : World) (p : String) :
    filterWrites (w.ensureDir p).ops = filterWrites w.ops := by
  unfold World.ensureDir
  split <;> simp

theorem out_ensureDir (w : World) (p : String) : (w.ensureDir p).out = w.out := by
  unfold World.ensureDir
  split <;> simp

theorem files_ensureDir (w : World) (p : String) : (w.ensureDir p).fs.files = w.fs.files := by
  unfold World.ensureDir
  split <;> simp [FS.mkdirSync]

theorem filterWrites_condStep (c : Bool) (w : World) (p m : String) :
    filterWrites (if c = true then w else (w.mkdir p).log m).ops
      = filterWrites w.ops := by
  split <;> simp

theorem filterWrites_dirStep (w : World) (p m : String) :
    filterWrites (if w.fs.existsSync p then w else (w.mkdir p).log m).ops
      = filterWrites w.ops := by
  split <;> simp

theorem out_dirStep_sub (w : World) (p m : String) :
    ∃ tail, (if w.fs.existsSync p then w else (w.mkdir p).log m).out = w.out ++ tail := by
  split
  · exact ⟨[], by simp⟩
  · exact ⟨[m], by simp⟩

theorem files_dirStep (w : World) (p m : String) :
    (if w.fs.existsSync p then w else (w.mkdir p).log m).fs.files = w.fs.files := by
  split <;> simp [FS.mkdirSync]

theorem filterWrites_foldl_ensure (out : String) (dirs : List String) (w : World) :
    filterWrites ((dirs.foldl (fun w dir => w.ensureDir (pathJoin out dir)) w)).ops
      = filterWrites w.ops := by
  induction dirs generalizing w with
  | nil => rfl
  | cons d ds ih => simp [List.foldl, ih, filterWrites_ensureDir]

theorem out_foldl_ensure (out : String) (dirs : List String) (w : World) :
    ((dirs.foldl (fun w dir => w.ensureDir (pathJoin out dir)) w)).out = w.out := by
  induction dirs generalizing w with
  | nil => rfl
  | cons d ds ih => simp [List.foldl, ih, out_ensureDir]

theorem files_foldl_ensure (out : String) (dirs : List String) (w : World) :
    ((dirs.foldl (fun w dir => w.ensureDir (pathJoin out dir)) w)).fs.files = w.fs.files := by
  induction dirs generalizing w with
  | nil => rfl
  | cons d ds ih => simp [List.foldl, ih, files_ensureDir]
end RPT

namespace RPT.ExampleGen

/-- The files written by one `createExampleRepository` run, as a pure function
of the requested name and output path (empty when the name is unregistered). -/
def writesDelta (name outputPath : String) : List (String × String) :=
  match List.lookup name EXAMPLES_CONFIG with
  | none => []
  | some config =>
    [(pathJoin outputPath "package.json", packageJsonContent name config.description),
     (pathJoin outputPath "README.md", readmeContent config),
     (pathJoin outputPath ".gitignore", gitignoreContent),
     (pathJoin outputPath "hardhat.config.ts", hardhatConfigContent)]

theorem createExampleRepository_writes (name outputPath : String) (w : World) :
    filterWrites ((createExampleRepository name outputPath w).1.ops)
      = filterWrites w.ops ++ writesDelta name outputPath := by
  cases hl : List.lookup name EXAMPLES_CONFIG with
  | none => simp [createExampleRepository, writesDelta, hl]
  | some config =>
    simp [createExampleRepository, writesDelta, hl, filterWrites_ensureDir,
      filterWrites_condStep]

theorem createExampleRepository_ops (name : String) (config : ExampleConfig)
    (outputPath : String) (w : World)
    (hl : List.lookup name EXAMPLES_CONFIG = some config)
    (hfs : w.fs = { dirs := [], files := [] }) (hops : w.ops = []) :
    (createExampleRepository name outputPath w).1.ops
      = [FsOp.mkdir outputPath,
         FsOp.mkdir (pathJoin outputPath "contracts"),
         FsOp.mkdir (pathJoin outputPath "test"),
         FsOp.mkdir (pathJoin outputPath "deploy"),
         FsOp.mkdir (pathJoin outputPath "scripts"),
         FsOp.write (pathJoin outputPath "package.json")
           (packageJsonContent name config.description),
         FsOp.write (pathJoin outputPath "README.md") (readmeContent config),
         FsOp.write (pathJoin outputPath ".gitignore") gitignoreContent,
         FsOp.write (pathJoin outputPath "hardhat.config.ts") hardhatConfigContent] := by
  simp [createExampleRepository, hl, hfs, hops, World.ensureDir, FS.existsSync,
    FS.mkdirSync, FS.writeFileSync, memStr, pathJoin, List.foldl, String.append_assoc]

end RPT.ExampleGen

namespace RPT.CategoryGen

/-- The files written by one `createCategoryRepository` run, as a pure
function of the requested name and output path. -/
def writesDelta (name outputPath : String) : List (String × String) :=
  match List.lookup name CATEGORIES_CONFIG with
  | none => []
  | some config =>
    [(pathJoin outputPath "package.json", packageJsonContent name config.description),
     (pathJoin outputPath "README.md", readmeContent name config),
     (pathJoin outputPath ".gitignore", gitignoreContent),
     (pathJoin outputPath "hardhat.config.ts", hardhatConfigContent),
     (pathJoin outputPath "tsconfig.json", tsconfigContent),
     (pathJoin (pathJoin outputPath "contracts") "SampleEncrypted.sol", sampleContractContent),
     (pathJoin (pathJoin outputPath "test") "SampleEncrypted.ts", sampleTestContent),
     (pathJoin outputPath "DEVELOPER_GUIDE.md", developerGuideContent config)]

theorem createCategoryRepository_writes (name outputPath : String) (w : World) :
    filterWrites ((createCategoryRepository name outputPath w).1.ops)
      = filterWrites w.ops ++ writesDelta name outputPath := by
  cases hl : List.lookup name CATEGORIES_CONFIG with
  | none => simp [createCategoryRepository, writesDelta, hl]
  | some config =>
    simp [createCategoryRepository, writesDelta, hl, filterWrites_ensureDir,
      filterWrites_condStep]

theorem createCategoryRepository_ops (name : String) (config : CategoryConfig)
    (outputPath : String) (w : World)
    (hl : List.lookup name CATEGORIES_CONFIG = some config)
    (hfs : w.fs = { dirs := [], files := [] }) (hops : w.ops = []) :
    (createCategoryRepository name outputPath w).1.ops
      = [FsOp.mkdir outputPath,
         FsOp.mkdir (pathJoin outputPath "contracts"),
         FsOp.mkdir (pathJoin outputPath "test"),
         FsOp.mkdir (pathJoin outputPath "deploy"),
         FsOp.mkdir (pathJoin outputPath "scripts"),
         FsOp.write (pathJoin outputPath "package.json")
           (packageJsonContent name config.description),
         FsOp.write (pathJoin outputPath "README.md") (readmeContent name config),
         FsOp.write (pathJoin outputPath ".gitignore") gitignoreContent,
         FsOp.write (pathJoin outputPath "hardhat.config.ts") hardhatConfigContent,
         FsOp.write (pathJoin outputPath "tsconfig.json") tsconfigContent,
         FsOp.write (pathJoin (pathJoin outputPath "contracts") "SampleEncrypted.sol")
           sampleContractContent,
         FsOp.write (pathJoin (pathJoin outputPath "test") "SampleEncrypted.ts")
           sampleTestContent,
         FsOp.write (pathJoin outputPath "DEVELOPER_GUIDE.md")
           (developerGuideContent config)] := by
  simp [createCategoryRepository, hl, hfs, hops, World.ensureDir, FS.existsSync,
    FS.mkdirSync, FS.writeFileSync, memStr, pathJoin, List.foldl, String.append_assoc]

end RPT.CategoryGen

namespace RPT.Docs

/-- The files written by one `generateDocumentation` run, as a pure function
of the requested name. -/
def writesDelta (name : String) : List (String × String) :=
  match List.lookup name DOCS_CONFIG with
  | none => []
  | some config => [(pathJoin "examples" (name ++ ".md"), docContent config)]

theorem generateDocumentation_writes (name : String) (w : World) :
    filterWrites ((generateDocumentation name w).1.ops)
      = filterWrites w.ops ++ writesDelta name := by
  cases hl : List.lookup name DOCS_CONFIG with
  | none => simp [generateDocumentation, writesDelta, hl]
  | some config =>
    simp [generateDocumentation, writesDelta, hl, filterWrites_ensureDir]

/-- The files written by one `generateAllDocumentation` run: one markdown
file per registered key (in insertion order) plus the aggregated index. -/
def allWritesDelta (now : String) : List (String × String) :=
  (DOCS_CONFIG.map fun kc => (pathJoin "examples" (kc.1 ++ ".md"), docContent kc.2))
    ++ [(pathJoin "examples" "README.md", summaryContent now)]

theorem generateAllDocumentation_writes (now : String) (w : World) :
    filterWrites ((generateAllDocumentation now w).1.ops)
      = filterWrites w.ops ++ allWritesDelta now := by
  simp [generateAllDocumentation, allWritesDelta, DOCS_CONFIG, List.foldl,
    generateDocumentation, List.lookup, filterWrites_ensureDir]

end RPT.Docs

namespace RPT.Docs

/-- The clock-independent part of the `--all` index file: `summaryContent now`
is this text followed by `now` and a final newline. -/
def summaryPre : String :=
  "# FHEVM Examples Documentation\n\n## Overview\n\n"
    ++ "Complete documentation for FHEVM example repositories demonstrating "
    ++ "privacy-preserving smart contracts.\n\n## Available Examples\n\n"
    ++ String.join (DOCS_CONFIG.map fun kc => summaryEntry kc.1 kc.2)
    ++ "\n\n## Quick Links\n\n- [FHEVM Documentation](https://docs.zama.ai/fhevm)\n"
    ++ "- [GitHub Repository](https://github.com/zama-ai/fhevm)\n"
    ++ "- [Zama Website](https://www.zama.ai)\n\n## Getting Started\n\n"
    ++ "1. Choose an example from the list above\n2. Read the documentation\n"
    ++ "3. Follow the \"Getting Started\" section\n4. Explore the code and tests\n"
    ++ "5. Modify and experiment!\n\n## Learning Path\n\n### Beginner\n"
    ++ "- Start with basic encryption concepts\n- Understand permission systems\n"
    ++ "- Explore simple use cases\n\n### Intermediate\n- Study complex contracts\n"
    ++ "- Learn advanced FHEVM operations\n- Implement custom applications\n\n"
    ++ "### Advanced\n- Multi-contract systems\n- Privacy-preserving protocols\n"
    ++ "- Novel use cases and research\n\n---\n\nLast Updated: "

theorem summaryContent_decomp (now : String) :
    summaryContent now = summaryPre ++ now ++ "\n" := rfl

end RPT.Docs

namespace RPT

/-- A second starting world, used by witnesses: a dirty filesystem (some
pre-existing directories and a file) and earlier console output, but no
recorded operations yet. -/
def dirtyWorld : World :=
  { fs := { dirs := ["examples", "./out"], files := [("examples/README.md", "old")] }
    ops := []
    out := ["previous output"] }

/-- Claim C1: for every registered name, running generate-one twice with the
same name and output path writes byte-identical content for every generated
file on both runs — the write list of `createExampleRepository`,
`generateDocumentation` and `createCategoryRepository` is a pure function of
the name/output-path arguments (`writesDelta`), independent of the starting
world (filesystem state, console state, clock). -/
theorem claim_C1 (name outputPath : String) (w1 w2 : World)
    (h1 : w1.ops = []) (h2 : w2.ops = []) :
    filterWrites ((ExampleGen.createExampleRepository name outputPath w1).1.ops)
      = filterWrites ((ExampleGen.createExampleRepository name outputPath w2).1.ops)
    ∧ filterWrites ((Docs.generateDocumentation name w1).1.ops)
      = filterWrites ((Docs.generateDocumentation name w2).1.ops)
    ∧ filterWrites ((CategoryGen.createCategoryRepository name outputPath w1).1.ops)
      = filterWrites ((CategoryGen.createCategoryRepository name outputPath w2).1.ops)
    ∧ filterWrites ((ExampleGen.createExampleRepository name outputPath w1).1.ops)
      = ExampleGen.writesDelta name outputPath
    ∧ filterWrites ((Docs.generateDocumentation name w1).1.ops)
      = Docs.writesDelta name := by
  simp [ExampleGen.createExampleRepository_writes, Docs.generateDocumentation_writes,
    CategoryGen.createCategoryRepository_writes, h1, h2]

/-- Witness for C1 at a concrete input: the runs on a fresh and on a dirty
world write the same files. -/
theorem claim_C1_witness :
    filterWrites ((ExampleGen.createExampleRepository "fhe-counter" "./out" freshWorld).1.ops)
      = filterWrites ((ExampleGen.createExampleRepository "fhe-counter" "./out" dirtyWorld).1.ops)
    ∧ filterWrites ((Docs.generateDocumentation "fhe-counter" freshWorld).1.ops)
      = filterWrites ((Docs.generateDocumentation "fhe-counter" dirtyWorld).1.ops)
    ∧ filterWrites ((CategoryGen.createCategoryRepository "fhe-counter" "./out" freshWorld).1.ops)
      = filterWrites ((CategoryGen.createCategoryRepository "fhe-counter" "./out" dirtyWorld).1.ops)
    ∧ filterWrites ((ExampleGen.createExampleRepository "fhe-counter" "./out" freshWorld).1.ops)
      = ExampleGen.writesDelta "fhe-counter" "./out"
    ∧ filterWrites ((Docs.generateDocumentation "fhe-counter" freshWorld).1.ops)
      = Docs.writesDelta "fhe-counter" :=
  claim_C1 "fhe-counter" "./out" freshWorld dirtyWorld rfl rfl

/-- Claim C3: `--all` produces exactly one markdown file per key registered
in `DOCS_CONFIG` (named `key.md`, in insertion order) plus exactly one
aggregated `README.md`, and the index body links every per-key file. -/
theorem claim_C3 (now : String) (w : World) (h : w.ops = []) :
    (filterWrites ((Docs.generateAllDocumentation now w).1.ops)).map Prod.fst
        = Docs.DOCS_CONFIG.map (fun kc => pathJoin "examples" (kc.1 ++ ".md"))
          ++ [pathJoin "examples" "README.md"]
    ∧ filterWrites ((Docs.generateAllDocumentation now w).1.ops) = Docs.allWritesDelta now
    ∧ ∀ kc ∈ Docs.DOCS_CONFIG,
        strContains (Docs.summaryContent now) ("](./" ++ kc.1 ++ ".md)") = true := by
  refine ⟨?_, ?_, ?_⟩
  · simp [Docs.generateAllDocumentation_writes, h, Docs.allWritesDelta, Docs.DOCS_CONFIG]
  · simp [Docs.generateAllDocumentation_writes, h]
  · intro kc hm
    have hk : kc.1 = "real-privacy-trading" := by
      simp [Docs.DOCS_CONFIG] at hm
      rw [hm]
    rw [hk, Docs.summaryContent_decomp]
    exact strContains_append_left "\n"
      (strContains_append_left now (by decide))

/-- Witness for C3 at a concrete clock value and the fresh world. -/
theorem claim_C3_witness :
    (filterWrites ((Docs.generateAllDocumentation "2025-01-01T00:00:00.000Z"
        freshWorld).1.ops)).map Prod.fst
        = Docs.DOCS_CONFIG.map (fun kc => pathJoin "examples" (kc.1 ++ ".md"))
          ++ [pathJoin "examples" "README.md"]
    ∧ filterWrites ((Docs.generateAllDocumentation "2025-01-01T00:00:00.000Z" freshWorld).1.ops)
        = Docs.allWritesDelta "2025-01-01T00:00:00.000Z"
    ∧ ∀ kc ∈ Docs.DOCS_CONFIG,
        strContains (Docs.summaryContent "2025-01-01T00:00:00.000Z")
          ("](./" ++ kc.1 ++ ".md)") = true :=
  claim_C3 "2025-01-01T00:00:00.000Z" freshWorld rfl

end RPT

namespace RPT

/-- Claim C10: the aggregated index written by `--all` embeds the invocation
time: two runs at different clock readings write byte-different `README.md`
index files, while every per-example markdown file is clock-independent and
identical across the runs (the write lists agree except for the final index
content, which differs whenever `now` differs). -/
theorem claim_C10 (n1 n2 : String) (w1 w2 : World) (h1 : w1.ops = []) (h2 : w2.ops = [])
    (hne : n1 ≠ n2) :
    filterWrites ((Docs.generateAllDocumentation n1 w1).1.ops)
        = (Docs.DOCS_CONFIG.map fun kc =>
            (pathJoin "examples" (kc.1 ++ ".md"), Docs.docContent kc.2))
          ++ [(pathJoin "examples" "README.md", Docs.summaryContent n1)]
    ∧ filterWrites ((Docs.generateAllDocumentation n2 w2).1.ops)
        = (Docs.DOCS_CONFIG.map fun kc =>
            (pathJoin "examples" (kc.1 ++ ".md"), Docs.docContent kc.2))
          ++ [(pathJoin "examples" "README.md", Docs.summaryContent n2)]
    ∧ Docs.summaryContent n1 ≠ Docs.summaryContent n2 := by
  refine ⟨?_, ?_, ?_⟩
  · simp [Docs.generateAllDocumentation_writes, h1, Docs.allWritesDelta]
  · simp [Docs.generateAllDocumentation_writes, h2, Docs.allWritesDelta]
  · intro he
    apply hne
    rw [Docs.summaryContent_decomp, Docs.summaryContent_decomp] at he
    have hd := congrArg String.data he
    simp only [String.data_append] at hd
    have h3 := List.append_cancel_right hd
    have h4 := List.append_cancel_left h3
    exact string_data_inj h4

/-- Witness for C10 at two concrete clock readings. -/
theorem claim_C10_witness :
    filterWrites ((Docs.generateAllDocumentation "2025-01-01T00:00:00.000Z"
        freshWorld).1.ops)
        = (Docs.DOCS_CONFIG.map fun kc =>
            (pathJoin "examples" (kc.1 ++ ".md"), Docs.docContent kc.2))
          ++ [(pathJoin "examples" "README.md",
               Docs.summaryContent "2025-01-01T00:00:00.000Z")]
    ∧ filterWrites ((Docs.generateAllDocumentation "2026-06-30T12:34:56.789Z"
        dirtyWorld).1.ops)
        = (Docs.DOCS_CONFIG.map fun kc =>
            (pathJoin "examples" (kc.1 ++ ".md"), Docs.docContent kc.2))
          ++ [(pathJoin "examples" "README.md",
               Docs.summaryContent "2026-06-30T12:34:56.789Z")]
    ∧ Docs.summaryContent "2025-01-01T00:00:00.000Z"
        ≠ Docs.summaryContent "2026-06-30T12:34:56.789Z" :=
  claim_C10 "2025-01-01T00:00:00.000Z" "2026-06-30T12:34:56.789Z" freshWorld dirtyWorld
    rfl rfl (by decide)

/-- Claim C7: generating `"fhe-counter"` at `"./out/counter"` exits 0,
creates exactly the output directory and the four fixed subdirectories,
writes exactly the manifest, README, ignore file and build config under that
path, and the manifest declares name `"fhe-counter"` and the Config's
description while the README contains the literal title `"FHE Counter"`. -/
theorem claim_C7 :
    (ExampleGen.createExampleRepository "fhe-counter" "./out/counter" freshWorld).2 = 0
    ∧ filterMkdirs ((ExampleGen.createExampleRepository "fhe-counter" "./out/counter"
        freshWorld).1.ops)
        = ["./out/counter", "./out/counter/contracts", "./out/counter/test",
           "./out/counter/deploy", "./out/counter/scripts"]
    ∧ (filterWrites ((ExampleGen.createExampleRepository "fhe-counter" "./out/counter"
        freshWorld).1.ops)).map Prod.fst
        = ["./out/counter/package.json", "./out/counter/README.md",
           "./out/counter/.gitignore", "./out/counter/hardhat.config.ts"]
    ∧ (∃ manifest,
        ("./out/counter/package.json", manifest)
            ∈ filterWrites ((ExampleGen.createExampleRepository "fhe-counter" "./out/counter"
                freshWorld).1.ops)
          ∧ strContains manifest "\"name\": \"fhe-counter\"" = true
          ∧ strContains manifest
              "\"description\": \"Simple encrypted counter demonstrating basic FHE operations\""
              = true)
    ∧ (∃ readme,
        ("./out/counter/README.md", readme)
            ∈ filterWrites ((ExampleGen.createExampleRepository "fhe-counter" "./out/counter"
                freshWorld).1.ops)
          ∧ strContains readme "# FHE Counter" = true) := by
  refine ⟨by decide, by decide, by decide, ?_, ?_⟩
  · refine ⟨ExampleGen.packageJsonContent "fhe-counter"
      "Simple encrypted counter demonstrating basic FHE operations", by decide, by decide,
      by decide⟩
  · refine ⟨ExampleGen.readmeContent
      { name := "fhe-counter", title := "FHE Counter"
        description := "Simple encrypted counter demonstrating basic FHE operations"
        concepts := ["Encrypted state", "FHE.add", "FHE.sub", "Permission management"]
        difficulty := "beginner" }, by decide, by decide⟩

end RPT

namespace RPT

theorem strStartsWith_self (a : String) : strStartsWith a a = true := by
  simp only [strStartsWith]
  have h := prefMatch_self_append a.data []
  simpa using h

theorem strStartsWith_extend {x p : String} (y : String) (h : strStartsWith x p = true) :
    strStartsWith (x ++ y) p = true := by
  simp only [strStartsWith, String.data_append] at h ⊢
  exact prefMatch_append y.data h

theorem strStartsWith_join (p x : String) : strStartsWith (pathJoin p x) (p ++ "/") = true :=
  strStartsWith_extend x (strStartsWith_self (p ++ "/"))

theorem strStartsWith_join2 (p x y : String) :
    strStartsWith (pathJoin (pathJoin p x) y) (p ++ "/") = true :=
  strStartsWith_extend y (strStartsWith_extend "/" (strStartsWith_extend x
    (strStartsWith_self (p ++ "/"))))

/-- Claim C4 counterexample: the category generator writes
`DEVELOPER_GUIDE.md`, which is not in the claimed exact file set (manifest,
build config, tsconfig, ignore file, README, sample contract, sample test) —
so the claimed layout is not exhaustive. -/
theorem claim_C4_counterexample :
    "./out/DEVELOPER_GUIDE.md"
        ∈ (filterWrites ((CategoryGen.createCategoryRepository "trading" "./out"
            freshWorld).1.ops)).map Prod.fst
    ∧ "./out/DEVELOPER_GUIDE.md" ∉
        ["./out/package.json", "./out/hardhat.config.ts", "./out/tsconfig.json",
         "./out/.gitignore", "./out/README.md", "./out/contracts/SampleEncrypted.sol",
         "./out/test/SampleEncrypted.ts"] := by
  constructor
  · decide
  · decide

/-- Claim C4 (amended): on a fresh filesystem the generated tree is exactly:
for the single-example generator a manifest, README, ignore file and build
config plus the output directory and its four fixed subdirectories (no sample
files); for the category generator additionally a tsconfig, one sample
contract, one sample test, and a `DEVELOPER_GUIDE.md` — and nothing else. -/
theorem claim_C4_amended (nameE : String) (cfgE : ExampleGen.ExampleConfig)
    (nameC : String) (cfgC : CategoryGen.CategoryConfig) (path : String) (w1 w2 : World)
    (hE : List.lookup nameE ExampleGen.EXAMPLES_CONFIG = some cfgE)
    (hC : List.lookup nameC CategoryGen.CATEGORIES_CONFIG = some cfgC)
    (hf1 : w1.fs = { dirs := [], files := [] }) (ho1 : w1.ops = [])
    (hf2 : w2.fs = { dirs := [], files := [] }) (ho2 : w2.ops = []) :
    (ExampleGen.createExampleRepository nameE path w1).1.ops
      = [FsOp.mkdir path,
         FsOp.mkdir (pathJoin path "contracts"),
         FsOp.mkdir (pathJoin path "test"),
         FsOp.mkdir (pathJoin path "deploy"),
         FsOp.mkdir (pathJoin path "scripts"),
         FsOp.write (pathJoin path "package.json")
           (ExampleGen.packageJsonContent nameE cfgE.description),
         FsOp.write (pathJoin path "README.md") (ExampleGen.readmeContent cfgE),
         FsOp.write (pathJoin path ".gitignore") ExampleGen.gitignoreContent,
         FsOp.write (pathJoin path "hardhat.config.ts") ExampleGen.hardhatConfigContent]
    ∧ (CategoryGen.createCategoryRepository nameC path w2).1.ops
      = [FsOp.mkdir path,
         FsOp.mkdir (pathJoin path "contracts"),
         FsOp.mkdir (pathJoin path "test"),
         FsOp.mkdir (pathJoin path "deploy"),
         FsOp.mkdir (pathJoin path "scripts"),
         FsOp.write (pathJoin path "package.json")
           (CategoryGen.packageJsonContent nameC cfgC.description),
         FsOp.write (pathJoin path "README.md") (CategoryGen.readmeContent nameC cfgC),
         FsOp.write (pathJoin path ".gitignore") CategoryGen.gitignoreContent,
         FsOp.write (pathJoin path "hardhat.config.ts") CategoryGen.hardhatConfigContent,
         FsOp.write (pathJoin path "tsconfig.json") CategoryGen.tsconfigContent,
         FsOp.write (pathJoin (pathJoin path "contracts") "SampleEncrypted.sol")
           CategoryGen.sampleContractContent,
         FsOp.write (pathJoin (pathJoin path "test") "SampleEncrypted.ts")
           CategoryGen.sampleTestContent,
         FsOp.write (pathJoin path "DEVELOPER_GUIDE.md")
           (CategoryGen.developerGuideContent cfgC)] :=
  ⟨ExampleGen.createExampleRepository_ops nameE cfgE path w1 hE hf1 ho1,
   CategoryGen.createCategoryRepository_ops nameC cfgC path w2 hC hf2 ho2⟩

/-- The registered `"fhe-counter"` Config, spelled out. -/
def fheCounterCfg : ExampleGen.ExampleConfig :=
  { name := "fhe-counter", title := "FHE Counter"
    description := "Simple encrypted counter demonstrating basic FHE operations"
    concepts := ["Encrypted state", "FHE.add", "FHE.sub", "Permission management"]
    difficulty := "beginner" }

/-- The registered `"trading"` category Config, spelled out. -/
def tradingCfg : CategoryGen.CategoryConfig :=
  { name := "trading", title := "Privacy-Preserving Trading Examples"
    description :=
      "Advanced examples demonstrating privacy-preserving decentralized trading using FHEVM"
    examples := ["real-privacy-trading"]
    concepts := ["Encrypted state variables", "Private computation",
      "Access control patterns", "Confidential transactions",
      "Order matching", "Portfolio management"]
    difficulty := "advanced" }

/-- Witness for the amended C4 at concrete inputs. -/
theorem claim_C4_amended_witness :
    (ExampleGen.createExampleRepository "fhe-counter" "./x" freshWorld).1.ops
      = [FsOp.mkdir "./x",
         FsOp.mkdir (pathJoin "./x" "contracts"),
         FsOp.mkdir (pathJoin "./x" "test"),
         FsOp.mkdir (pathJoin "./x" "deploy"),
         FsOp.mkdir (pathJoin "./x" "scripts"),
         FsOp.write (pathJoin "./x" "package.json")
           (ExampleGen.packageJsonContent "fhe-counter" fheCounterCfg.description),
         FsOp.write (pathJoin "./x" "README.md") (ExampleGen.readmeContent fheCounterCfg),
         FsOp.write (pathJoin "./x" ".gitignore") ExampleGen.gitignoreContent,
         FsOp.write (pathJoin "./x" "hardhat.config.ts") ExampleGen.hardhatConfigContent]
    ∧ (CategoryGen.createCategoryRepository "trading" "./x" freshWorld).1.ops
      = [FsOp.mkdir "./x",
         FsOp.mkdir (pathJoin "./x" "contracts"),
         FsOp.mkdir (pathJoin "./x" "test"),
         FsOp.mkdir (pathJoin "./x" "deploy"),
         FsOp.mkdir (pathJoin "./x" "scripts"),
         FsOp.write (pathJoin "./x" "package.json")
           (CategoryGen.packageJsonContent "trading" tradingCfg.description),
         FsOp.write (pathJoin "./x" "README.md")
           (CategoryGen.readmeContent "trading" tradingCfg),
         FsOp.write (pathJoin "./x" ".gitignore") CategoryGen.gitignoreContent,
         FsOp.write (pathJoin "./x" "hardhat.config.ts") CategoryGen.hardhatConfigContent,
         FsOp.write (pathJoin "./x" "tsconfig.json") CategoryGen.tsconfigContent,
         FsOp.write (pathJoin (pathJoin "./x" "contracts") "SampleEncrypted.sol")
           CategoryGen.sampleContractContent,
         FsOp.write (pathJoin (pathJoin "./x" "test") "SampleEncrypted.ts")
           CategoryGen.sampleTestContent,
         FsOp.write (pathJoin "./x" "DEVELOPER_GUIDE.md")
           (CategoryGen.developerGuideContent tradingCfg)] :=
  claim_C4_amended "fhe-counter" fheCounterCfg "trading" tradingCfg "./x"
    freshWorld freshWorld rfl rfl rfl rfl rfl rfl

end RPT

namespace RPT

/-- Claim C5 counterexample: the documentation generator offers no
output-path argument; invoked with an explicit second argument
`"/tmp/custom"` it still writes its markdown under the hard-coded
`examples/` directory, which is not under `"/tmp/custom"`. -/
theorem claim_C5_counterexample :
    (filterWrites ((Docs.main ["real-privacy-trading", "/tmp/custom"]
        "2025-01-01T00:00:00.000Z" freshWorld).1.ops)).map Prod.fst
      = ["examples/real-privacy-trading.md"]
    ∧ strStartsWith "examples/real-privacy-trading.md" ("/tmp/custom" ++ "/") = false := by
  constructor
  · decide
  · decide

/-- Claim C5 (amended): the single-example and category generators write
every file under the caller-supplied output path; the documentation
generator instead writes every file under the fixed `examples` directory,
whatever its argument vector is. -/
theorem claim_C5_amended (name path : String) (w : World) (h : w.ops = [])
    (args : List String) (now : String) :
    (∀ q ∈ (filterWrites ((ExampleGen.createExampleRepository name path w).1.ops)).map
        Prod.fst, strStartsWith q (path ++ "/") = true)
    ∧ (∀ q ∈ (filterWrites ((CategoryGen.createCategoryRepository name path w).1.ops)).map
        Prod.fst, strStartsWith q (path ++ "/") = true)
    ∧ (∀ q ∈ (filterWrites ((Docs.main args now w).1.ops)).map Prod.fst,
        strStartsWith q ("examples" ++ "/") = true) := by
  refine ⟨?_, ?_, ?_⟩
  · intro q hq
    rw [ExampleGen.createExampleRepository_writes, h] at hq
    cases hl : List.lookup name ExampleGen.EXAMPLES_CONFIG with
    | none => simp [ExampleGen.writesDelta, hl] at hq
    | some cfg =>
      simp [ExampleGen.writesDelta, hl] at hq
      rcases hq with rfl | rfl | rfl | rfl <;> exact strStartsWith_join path _
  · intro q hq
    rw [CategoryGen.createCategoryRepository_writes, h] at hq
    cases hl : List.lookup name CategoryGen.CATEGORIES_CONFIG with
    | none => simp [CategoryGen.writesDelta, hl] at hq
    | some cfg =>
      simp [CategoryGen.writesDelta, hl] at hq
      rcases hq with rfl | rfl | rfl | rfl | rfl | rfl | rfl | rfl
      · exact strStartsWith_join path _
      · exact strStartsWith_join path _
      · exact strStartsWith_join path _
      · exact strStartsWith_join path _
      · exact strStartsWith_join path _
      · exact strStartsWith_join2 path _ _
      · exact strStartsWith_join2 path _ _
      · exact strStartsWith_join path _
  · intro q hq
    unfold Docs.main at hq
    split at hq
    · simp [h] at hq
    · split at hq
      · rw [Docs.generateAllDocumentation_writes, h] at hq
        simp [Docs.allWritesDelta, Docs.DOCS_CONFIG] at hq
        rcases hq with rfl | rfl <;> exact strStartsWith_join "examples" _
      · rw [Docs.generateDocumentation_writes, h] at hq
        generalize hn : args.getD 0 "" = n at hq
        cases hl : List.lookup n Docs.DOCS_CONFIG with
        | none => simp [Docs.writesDelta, hl] at hq
        | some cfg =>
          simp [Docs.writesDelta, hl] at hq
          subst hq
          exact strStartsWith_join "examples" _

/-- Witness for the amended C5 at concrete inputs. -/
theorem claim_C5_amended_witness :
    (∀ q ∈ (filterWrites ((ExampleGen.createExampleRepository "fhe-counter" "./y"
        freshWorld).1.ops)).map Prod.fst, strStartsWith q ("./y" ++ "/") = true)
    ∧ (∀ q ∈ (filterWrites ((CategoryGen.createCategoryRepository "fhe-counter" "./y"
        freshWorld).1.ops)).map Prod.fst, strStartsWith q ("./y" ++ "/") = true)
    ∧ (∀ q ∈ (filterWrites ((Docs.main ["real-privacy-trading"]
        "2025-01-01T00:00:00.000Z" freshWorld).1.ops)).map Prod.fst,
        strStartsWith q ("examples" ++ "/") = true) :=
  claim_C5_amended "fhe-counter" "./y" freshWorld rfl ["real-privacy-trading"]
    "2025-01-01T00:00:00.000Z"

/-- Claim C6: the documentation generator's generate-one path never reads any
file content: its operation trace, console output, exit status — and hence
the generated markdown body — are unchanged under arbitrary changes to the
contents of the files on disk (only the file *names* and directories can
matter), and the written body is the fixed template `docContent` of the
selected config, into which only the config's path strings are
interpolated. -/
theorem claim_C6 (name : String) (w1 w2 : World)
    (hops : w1.ops = w2.ops) (hout : w1.out = w2.out) (hdirs : w1.fs.dirs = w2.fs.dirs)
    (hfiles : w1.fs.files.map Prod.fst = w2.fs.files.map Prod.fst) :
    (Docs.generateDocumentation name w1).1.ops = (Docs.generateDocumentation name w2).1.ops
    ∧ (Docs.generateDocumentation name w1).1.out
        = (Docs.generateDocumentation name w2).1.out
    ∧ (Docs.generateDocumentation name w1).2 = (Docs.generateDocumentation name w2).2
    ∧ filterWrites ((Docs.generateDocumentation name w1).1.ops)
        = filterWrites w1.ops ++ Docs.writesDelta name := by
  have hex : w1.fs.existsSync "examples" = w2.fs.existsSync "examples" := by
    simp [FS.existsSync, hdirs, hfiles]
  refine ⟨?_, ?_, ?_, Docs.generateDocumentation_writes name w1⟩ <;>
    · cases hl : List.lookup name Docs.DOCS_CONFIG with
      | none => simp [Docs.generateDocumentation, hl, hout, hops]
      | some cfg =>
        by_cases hc : w2.fs.existsSync "examples" = true
        · simp [Docs.generateDocumentation, hl, World.ensureDir, hex, hc, hops, hout]
        · simp [Docs.generateDocumentation, hl, World.ensureDir, hex, hc, hops, hout]

/-- Witness for C6: two worlds whose files have the same names but different
contents (the contract file named by the config differs). -/
theorem claim_C6_witness :
    (Docs.generateDocumentation "real-privacy-trading"
        { fs := { dirs := [], files := [("contracts/RealPrivacyTrading.sol", "AAA")] }
          ops := [], out := [] }).1.ops
      = (Docs.generateDocumentation "real-privacy-trading"
        { fs := { dirs := [], files := [("contracts/RealPrivacyTrading.sol", "BBB")] }
          ops := [], out := [] }).1.ops
    ∧ (Docs.generateDocumentation "real-privacy-trading"
        { fs := { dirs := [], files := [("contracts/RealPrivacyTrading.sol", "AAA")] }
          ops := [], out := [] }).1.out
      = (Docs.generateDocumentation "real-privacy-trading"
        { fs := { dirs := [], files := [("contracts/RealPrivacyTrading.sol", "BBB")] }
          ops := [], out := [] }).1.out
    ∧ (Docs.generateDocumentation "real-privacy-trading"
        { fs := { dirs := [], files := [("contracts/RealPrivacyTrading.sol", "AAA")] }
          ops := [], out := [] }).2
      = (Docs.generateDocumentation "real-privacy-trading"
        { fs := { dirs := [], files := [("contracts/RealPrivacyTrading.sol", "BBB")] }
          ops := [], out := [] }).2
    ∧ filterWrites ((Docs.generateDocumentation "real-privacy-trading"
        { fs := { dirs := [], files := [("contracts/RealPrivacyTrading.sol", "AAA")] }
          ops := [], out := [] }).1.ops)
      = filterWrites ([] : List FsOp) ++ Docs.writesDelta "real-privacy-trading" :=
  claim_C6 "real-privacy-trading"
    { fs := { dirs := [], files := [("contracts/RealPrivacyTrading.sol", "AAA")] }
      ops := [], out := [] }
    { fs := { dirs := [], files := [("contracts/RealPrivacyTrading.sol", "BBB")] }
      ops := [], out := [] }
    rfl rfl rfl rfl

end RPT

namespace RPT

theorem strContains_false_findOcc {content pat : String}
    (h : strContains content pat = false) : findOcc pat.data content.data 0 = none := by
  simp only [strContains] at h
  cases hq : findOcc pat.data content.data 0
  · rfl
  · rw [hq] at h
    simp at h

/-- Claim C8: `extractCodeSection` never throws: for a missing file it prints
a warning and returns the empty string; for an existing file whose content
lacks the start marker or lacks the end marker it returns the first 500
characters of the file followed by `"\n..."`. -/
theorem claim_C8 (w : World) (filePath startComment endComment content : String) :
    (w.fs.existsSync filePath = false →
      Docs.extractCodeSection w filePath startComment endComment
        = (w.log ("  ⚠️  File not found: " ++ filePath), ""))
    ∧ (List.lookup filePath w.fs.files = some content →
       (strContains content startComment = false ∨ strContains content endComment = false) →
       Docs.extractCodeSection w filePath startComment endComment
         = (w, jsSubstring content 0 500 ++ "\n...")) := by
  constructor
  · intro h
    simp [Docs.extractCodeSection, h]
  · intro hf hmiss
    have hex : w.fs.existsSync filePath = true := by
      simp [FS.existsSync, memStr_of_lookup hf]
    have hread : w.fs.readFileSync filePath = content := by
      simp [FS.readFileSync, hf]
    rcases hmiss with hsc | hec
    · have hnone := strContains_false_findOcc hsc
      simp [Docs.extractCodeSection, hex, hread, jsIndexOfFrom, hnone]
    · have hnone := strContains_false_findOcc hec
      cases hq : findOcc startComment.data content.data 0 with
      | none =>
        simp [Docs.extractCodeSection, hex, hread, jsIndexOfFrom, hq]
      | some n =>
        have hend := findOcc_drop_none hnone n n
        simp [Docs.extractCodeSection, hex, hread, jsIndexOfFrom, hq, hend]

/-- Witness for C8: a world with one short file; extraction from a missing
file warns and returns the empty string, and extraction with absent markers
returns the (sub-500-character) content plus the ellipsis. -/
theorem claim_C8_witness :
    Docs.extractCodeSection
        { fs := { dirs := [], files := [("a.sol", "hello world")] }, ops := [], out := [] }
        "missing.sol" "// start" "// end"
      = (World.log
          { fs := { dirs := [], files := [("a.sol", "hello world")] }, ops := [], out := [] }
          ("  ⚠️  File not found: " ++ "missing.sol"), "")
    ∧ Docs.extractCodeSection
        { fs := { dirs := [], files := [("a.sol", "hello world")] }, ops := [], out := [] }
        "a.sol" "// start" "// end"
      = ({ fs := { dirs := [], files := [("a.sol", "hello world")] }, ops := [], out := [] },
         jsSubstring "hello world" 0 500 ++ "\n...") :=
  ⟨(claim_C8
      { fs := { dirs := [], files := [("a.sol", "hello world")] }, ops := [], out := [] }
      "missing.sol" "// start" "// end" "irrelevant").1 (by decide),
   (claim_C8
      { fs := { dirs := [], files := [("a.sol", "hello world")] }, ops := [], out := [] }
      "a.sol" "// start" "// end" "hello world").2 (by decide) (Or.inl (by decide))⟩

end RPT

namespace RPT

/-- Claim C2 counterexample: on an unknown name the documentation generator
prints only the error line and exits 1 — its single output line does not
mention the one valid registered key, so the full valid list is not
printed. -/
theorem claim_C2_counterexample :
    (Docs.generateDocumentation "nonexistent" freshWorld).2 = 1
    ∧ (Docs.generateDocumentation "nonexistent" freshWorld).1.ops = []
    ∧ (Docs.generateDocumentation "nonexistent" freshWorld).1.out
        = ["❌ Unknown example: " ++ "nonexistent"]
    ∧ ((Docs.generateDocumentation "nonexistent" freshWorld).1.out.all
        fun line => !(strContains line "real-privacy-trading")) = true := by
  refine ⟨by decide, by decide, by decide, by decide⟩

/-- Claim C2 (amended): on an unknown name, validation precedes every
filesystem operation in all three generators and each exits with status 1
after an error naming the bad value; the single-example and category
generators additionally print the full list of valid registered keys, while
the documentation generator prints only the error line. -/
theorem claim_C2_amended (name path now : String) (w : World) (hops : w.ops = [])
    (hex : List.lookup name ExampleGen.EXAMPLES_CONFIG = none)
    (hcat : List.lookup name CategoryGen.CATEGORIES_CONFIG = none)
    (hdoc : List.lookup name Docs.DOCS_CONFIG = none)
    (hnh : name ≠ "--help") (hnl : name ≠ "--list") (hna : name ≠ "--all")
    (hph : path ≠ "--help") (hpl : path ≠ "--list") :
    ((ExampleGen.main [name, path] w).2 = 1
      ∧ (ExampleGen.main [name, path] w).1.ops = []
      ∧ (ExampleGen.main [name, path] w).1.out
          = w.out ++ ("❌ Unknown example: " ++ name ++ "\n") :: ExampleGen.listLines
      ∧ ∀ kc ∈ ExampleGen.EXAMPLES_CONFIG,
          ("  " ++ kc.1) ∈ (ExampleGen.main [name, path] w).1.out)
    ∧ ((CategoryGen.main [name, path] w).2 = 1
      ∧ (CategoryGen.main [name, path] w).1.ops = []
      ∧ (CategoryGen.main [name, path] w).1.out
          = w.out ++ ("❌ Unknown category: " ++ name ++ "\n") :: CategoryGen.listLines
      ∧ ∀ kc ∈ CategoryGen.CATEGORIES_CONFIG,
          ("  " ++ kc.1) ∈ (CategoryGen.main [name, path] w).1.out)
    ∧ ((Docs.main [name] now w).2 = 1
      ∧ (Docs.main [name] now w).1.ops = []
      ∧ (Docs.main [name] now w).1.out = w.out ++ ["❌ Unknown example: " ++ name]) := by
  have e1 : ("--help" == name) = false := beq_eq_false_iff_ne.mpr (Ne.symm hnh)
  have e2 : ("--help" == path) = false := beq_eq_false_iff_ne.mpr (Ne.symm hph)
  have e3 : ("--list" == name) = false := beq_eq_false_iff_ne.mpr (Ne.symm hnl)
  have e4 : ("--list" == path) = false := beq_eq_false_iff_ne.mpr (Ne.symm hpl)
  have e5 : ("--all" == name) = false := beq_eq_false_iff_ne.mpr (Ne.symm hna)
  have hE : ExampleGen.main [name, path] w
      = ((w.log ("❌ Unknown example: " ++ name ++ "\n")).logMany ExampleGen.listLines, 1) := by
    simp [ExampleGen.main, memStr, e1, e2, e3, e4, hex, ExampleGen.validateExampleName]
  have hC : CategoryGen.main [name, path] w
      = ((w.log ("❌ Unknown category: " ++ name ++ "\n")).logMany CategoryGen.listLines,
         1) := by
    simp [CategoryGen.main, memStr, e1, e2, e3, e4, hcat, CategoryGen.validateCategoryName]
  have hD : Docs.main [name] now w = (w.log ("❌ Unknown example: " ++ name), 1) := by
    simp [Docs.main, memStr, e1, e5, Docs.generateDocumentation, hdoc]
  have hallE : ∀ kc ∈ ExampleGen.EXAMPLES_CONFIG,
      ("  " ++ kc.1) ∈ ExampleGen.listLines := by decide
  have hallC : ∀ kc ∈ CategoryGen.CATEGORIES_CONFIG,
      ("  " ++ kc.1) ∈ CategoryGen.listLines := by decide
  refine ⟨⟨?_, ?_, ?_, ?_⟩, ⟨?_, ?_, ?_, ?_⟩, ?_, ?_, ?_⟩
  · rw [hE]
  · rw [hE]
    simp [hops]
  · rw [hE]
    simp
  · intro kc hkc
    rw [hE]
    simp only [out_logMany, out_log]
    exact List.mem_append_right _ (hallE kc hkc)
  · rw [hC]
  · rw [hC]
    simp [hops]
  · rw [hC]
    simp
  · intro kc hkc
    rw [hC]
    simp only [out_logMany, out_log]
    exact List.mem_append_right _ (hallC kc hkc)
  · rw [hD]
  · rw [hD]
    simp [hops]
  · rw [hD]
    simp

/-- Witness for the amended C2 at the concrete unknown name
`"nonexistent"`. -/
theorem claim_C2_amended_witness :
    (ExampleGen.main ["nonexistent", "./p"] freshWorld).2 = 1
    ∧ (CategoryGen.main ["nonexistent", "./p"] freshWorld).2 = 1
    ∧ (Docs.main ["nonexistent"] "2025-01-01T00:00:00.000Z" freshWorld).1.out
        = freshWorld.out ++ ["❌ Unknown example: " ++ "nonexistent"] :=
  ⟨(claim_C2_amended "nonexistent" "./p" "2025-01-01T00:00:00.000Z" freshWorld rfl
      rfl rfl rfl (by decide) (by decide) (by decide) (by decide) (by decide)).1.1,
   (claim_C2_amended "nonexistent" "./p" "2025-01-01T00:00:00.000Z" freshWorld rfl
      rfl rfl rfl (by decide) (by decide) (by decide) (by decide) (by decide)).2.1.1,
   (claim_C2_amended "nonexistent" "./p" "2025-01-01T00:00:00.000Z" freshWorld rfl
      rfl rfl rfl (by decide) (by decide) (by decide) (by decide) (by decide)).2.2.2.2⟩

/-- Claim C9 counterexample: the documentation generator has no `--list`
branch — invoked with `["--list"]` it treats the flag as an example name,
prints the unknown-example error and exits 1 instead of printing a registry
listing and exiting 0. -/
theorem claim_C9_counterexample :
    (Docs.main ["--list"] "2025-01-01T00:00:00.000Z" freshWorld).2 = 1
    ∧ (Docs.main ["--list"] "2025-01-01T00:00:00.000Z" freshWorld).1.ops = []
    ∧ (Docs.main ["--list"] "2025-01-01T00:00:00.000Z" freshWorld).1.out
        = ["❌ Unknown example: " ++ "--list"] := by
  refine ⟨by decide, by decide, by decide⟩

/-- Claim C9 (amended): an empty argument list or `--help` anywhere makes
all three generators print the usage text and exit 0 without writing;
`--list` (without `--help`) makes the single-example and category generators
print their registry listing and exit 0 without writing; the documentation
generator has no `--list` flag and, invoked with `["--list"]`, errors with
exit 1, still writing nothing. -/
theorem claim_C9_amended (args : List String) (now : String) (w : World)
    (hops : w.ops = []) :
    ((args.length == 0 || memStr "--help" args) = true →
      ExampleGen.main args w = (w.log ExampleGen.helpText, 0)
      ∧ CategoryGen.main args w = (w.log CategoryGen.helpText, 0)
      ∧ Docs.main args now w = (w.log Docs.helpText, 0)
      ∧ (ExampleGen.main args w).1.ops = [])
    ∧ (memStr "--help" args = false → memStr "--list" args = true →
      ExampleGen.main args w = (w.logMany ExampleGen.listLines, 0)
      ∧ CategoryGen.main args w = (w.logMany CategoryGen.listLines, 0)
      ∧ (ExampleGen.main args w).1.ops = []
      ∧ (CategoryGen.main args w).1.ops = [])
    ∧ ((Docs.main ["--list"] now w).2 = 1 ∧ (Docs.main ["--list"] now w).1.ops = []) := by
  refine ⟨?_, ?_, ?_, ?_⟩
  · intro hc
    refine ⟨?_, ?_, ?_, ?_⟩ <;> simp [ExampleGen.main, CategoryGen.main, Docs.main, hc, hops]
  · intro hh hl
    have hne : (args.length == 0) = false := memStr_length_ne_zero hl
    refine ⟨?_, ?_, ?_, ?_⟩ <;>
      simp [ExampleGen.main, CategoryGen.main, hne, hh, hl, hops]
  · simp [Docs.main, memStr, Docs.generateDocumentation, Docs.DOCS_CONFIG, List.lookup]
  · simp [Docs.main, memStr, Docs.generateDocumentation, Docs.DOCS_CONFIG, List.lookup,
      hops]

/-- Witness for the amended C9: the `--list` branch at a concrete
invocation. -/
theorem claim_C9_amended_witness :
    ExampleGen.main ["--list"] freshWorld = (freshWorld.logMany ExampleGen.listLines, 0)
    ∧ CategoryGen.main ["--list"] freshWorld
        = (freshWorld.logMany CategoryGen.listLines, 0)
    ∧ (ExampleGen.main ["--list"] freshWorld).1.ops = []
    ∧ (CategoryGen.main ["--list"] freshWorld).1.ops = [] :=
  (claim_C9_amended ["--list"] "2025-01-01T00:00:00.000Z" freshWorld rfl).2.1
    (by decide) (by decide)

end RPT
